import Mathlib

/-
  Verification of the AppAgent-AutoModel orchestration engine.

  Shallow embedding of the repository's Python sources:
    * src/src/workflows/xhs_publish.py   (planner helpers)
    * src/src/android_tool.py            (coordinate coercion, tap_coordinates)
    * src/src/browser_tool.py            (singleton browser session registry)
    * src/src/skills/__init__.py         (execute_skill dispatch table)
    * src/src/chat_agent.py              (session injection, policy gate,
                                          per-result conversation handling,
                                          review phase)

  Python dict values are modelled by `PyVal`; dicts are ordered association
  lists (`Dict`).  Fallible Python code is modelled with `Except PyExc`.
-/

namespace AppAgent

/-- A Python exception, degraded to its type name and message text. -/
structure PyExc where
  kind : String
  msg : String
deriving Repr, DecidableEq

instance exceptDecEq {ε α : Type} [DecidableEq ε] [DecidableEq α] :
    DecidableEq (Except ε α) := fun x y =>
  match x, y with
  | Except.ok a, Except.ok b =>
    if h : a = b then Decidable.isTrue (by rw [h])
    else Decidable.isFalse (fun hc => h (Except.ok.inj hc))
  | Except.ok _, Except.error _ => Decidable.isFalse (fun hc => Except.noConfusion hc)
  | Except.error _, Except.ok _ => Decidable.isFalse (fun hc => Except.noConfusion hc)
  | Except.error a, Except.error b =>
    if h : a = b then Decidable.isTrue (by rw [h])
    else Decidable.isFalse (fun hc => h (Except.error.inj hc))

/-- Untyped Python values as they appear in tool arguments and results. -/
inductive PyVal where
  | none
  | bool (b : Bool)
  | int (n : Int)
  | str (s : String)
  | list (xs : List PyVal)
  | dict (xs : List (String × PyVal))

/-- Ordered string-keyed map, the shape of ToolCall arguments and ToolResults. -/
abbrev Dict := List (String × PyVal)

/-- First-occurrence lookup in an association list (Python dict `.get`). -/
def assocFind (d : List (String × PyVal)) (k : String) : Option PyVal :=
  match d with
  | [] => Option.none
  | (k', v) :: rest => if k' = k then Option.some v else assocFind rest k

/-- Python `d.get(k, default)`. -/
def dictGetD (d : Dict) (k : String) (dflt : PyVal) : PyVal :=
  match assocFind d k with
  | Option.some v => v
  | Option.none => dflt

/-- Python `k in d`. -/
def hasKey (d : Dict) (k : String) : Bool :=
  (assocFind d k).isSome

/-- Python truthiness of a value. -/
def pyTruthy : PyVal → Bool
  | PyVal.none => false
  | PyVal.bool b => b
  | PyVal.int n => n ≠ 0
  | PyVal.str s => s ≠ ""
  | PyVal.list xs => !xs.isEmpty
  | PyVal.dict xs => !xs.isEmpty

/-- Python `len` on the values for which the sources take a length. -/
def pyLen : PyVal → Nat
  | PyVal.str s => s.length
  | PyVal.list xs => xs.length
  | PyVal.dict xs => xs.length
  | _ => 0

/-- Python `str()` rendering, for the value shapes reaching f-strings here. -/
def pyStr : PyVal → String
  | PyVal.none => "None"
  | PyVal.bool b => if b then "True" else "False"
  | PyVal.int n => toString n
  | PyVal.str s => s
  | PyVal.list _ => "[...]"
  | PyVal.dict _ => "{...}"

/-- Python `val is False`: only the literal boolean `False`. -/
def isFalseLit : PyVal → Bool
  | PyVal.bool b => !b
  | _ => false

/-- Exact list-prefix test on character lists. -/
def isPrefixOfChars : List Char → List Char → Bool
  | [], _ => true
  | _ :: _, [] => false
  | p :: ps, c :: cs => p = c && isPrefixOfChars ps cs

/-- Substring containment on character lists (Python `sub in s`). -/
def containsSub (hay pat : List Char) : Bool :=
  match hay with
  | [] => pat.isEmpty
  | _ :: rest => isPrefixOfChars pat hay || containsSub rest pat

/-- Substring containment on strings (Python `sub in s`). -/
def strContains (s sub : String) : Bool :=
  containsSub s.toList sub.toList

/-- Count non-overlapping occurrences of a pattern (Python `s.count(sub)`). -/
def countSub (pat : List Char) : List Char → Nat
  | [] => 0
  | c :: cs =>
    if isPrefixOfChars pat (c :: cs) then
      1 + countSub pat (List.drop (pat.length - 1) cs)
    else
      countSub pat cs
termination_by cs => cs.length
decreasing_by
  · simp only [List.length_cons, List.length_drop]
    omega
  · simp only [List.length_cons]
    omega

/-- Count occurrences of a pattern in a string (Python `s.count(sub)`). -/
def strCount (s sub : String) : Nat :=
  countSub sub.toList s.toList

/-
  src/src/workflows/xhs_publish.py
-/

/-- Word character for the regex word boundary, approximating Python re `\w`
on the character classes occurring in this repository: ASCII alphanumerics,
underscore, and CJK ideographs (which are word characters in Python regular
expressions); CJK punctuation and whitespace are non-word. -/
def isWordChar (c : Char) : Bool :=
  c.isAlpha || c.isDigit || c = '_' ||
  (0x4E00 ≤ c.toNat && c.toNat ≤ 0x9FFF) ||
  (0x3400 ≤ c.toNat && c.toNat ≤ 0x4DBF)

/-- First `n` characters exist and are ASCII digits. -/
def digitsRun : List Char → Nat → Bool
  | _, 0 => true
  | [], _ + 1 => false
  | c :: cs, n + 1 => c.isDigit && digitsRun cs n

/-- Whether the regex `\b1\d{10}\b` matches at the head of `cs`, where `prev`
is the character just before that position (if any). -/
def phoneMatchAt (prev : Option Char) (cs : List Char) : Bool :=
  (match prev with
   | Option.none => true
   | Option.some p => !isWordChar p) &&
  (match cs with
   | '1' :: rest =>
     digitsRun rest 10 &&
     (match List.drop 10 rest with
      | [] => true
      | c :: _ => !isWordChar c)
   | _ => false)

/-- Leftmost scan for the phone pattern (Python `re.search`). -/
def extractPhoneAux (prev : Option Char) (cs : List Char) : Option String :=
  match cs with
  | [] => Option.none
  | c :: rest =>
    if phoneMatchAt prev (c :: rest) then
      Option.some (String.mk (List.take 11 (c :: rest)))
    else
      extractPhoneAux (Option.some c) rest

/-- `extract_phone`: first match of `\b1\d{10}\b` in the text. -/
def extract_phone (text : String) : Option String :=
  extractPhoneAux Option.none text.toList

/-- Python `str.lower()` (ASCII effect; the CJK keywords are unaffected). -/
def pyLower (s : String) : String :=
  String.mk (s.toList.map Char.toLower)

/-- Python whitespace for `str.strip()`. -/
def isPySpace (c : Char) : Bool :=
  c = ' ' || c = '\t' || c = '\n' || c = '\r' || c = '\x0b' || c = '\x0c'

/-- Python `str.strip()`. -/
def pyStrip (s : String) : String :=
  String.mk (((s.toList.dropWhile isPySpace).reverse.dropWhile isPySpace).reverse)

/-- The intent keyword list of `detect_xhs_publish_intent`. -/
def xhsIntentKeys : List String := ["小红书", "xhs", "发布", "帖子", "笔记"]

/-- `detect_xhs_publish_intent`: at least two keywords occur in the lowered text. -/
def detect_xhs_publish_intent (text : String) : Bool :=
  let t := pyLower text
  2 ≤ xhsIntentKeys.countP (fun k => strContains t k)

/-- Group-1 alternatives of the topic pattern `(关于|发布|写)(.*?)(帖子|笔记|内容)`. -/
def topicG1 : List String := ["关于", "发布", "写"]

/-- Group-3 alternatives of the topic pattern. -/
def topicG3 : List String := ["帖子", "笔记", "内容"]

/-- Drop a literal pattern from the head of `cs`, if it is a prefix. -/
def dropLit (pat : List Char) (cs : List Char) : Option (List Char) :=
  if isPrefixOfChars pat cs then Option.some (List.drop pat.length cs) else Option.none

/-- Match the first alternative that is a literal prefix of `cs`. -/
def matchAlt (alts : List String) (cs : List Char) : Option (List Char) :=
  match alts with
  | [] => Option.none
  | a :: rest =>
    match dropLit a.toList cs with
    | Option.some r => Option.some r
    | Option.none => matchAlt rest cs

/-- Lazy `(.*?)`: shortest run of non-newline characters after which a group-3
alternative matches; returns that run (the topic candidate). -/
def lazyMiddle (cs : List Char) : Option (List Char) :=
  if (matchAlt topicG3 cs).isSome then Option.some []
  else
    match cs with
    | [] => Option.none
    | c :: rest =>
      if c = '\n' then Option.none
      else
        match lazyMiddle rest with
        | Option.some mid => Option.some (c :: mid)
        | Option.none => Option.none

/-- Leftmost search for `(关于|发布|写)(.*?)(帖子|笔记|内容)`, returning group 2. -/
def topicSearch : List Char → Option (List Char)
  | [] => Option.none
  | c :: rest =>
    match matchAlt topicG1 (c :: rest) with
    | Option.some after =>
      match lazyMiddle after with
      | Option.some mid => Option.some mid
      | Option.none => topicSearch rest
    | Option.none => topicSearch rest

/-- The fallback topic of `create_plan`. -/
def defaultTopic : String := "长沙旅游景点"

/-- Topic selection in `create_plan`: group 2 stripped, when non-empty. -/
def extractTopic (user_message : String) : String :=
  match topicSearch user_message.toList with
  | Option.some mid =>
    let t := pyStrip (String.mk mid)
    if t = "" then defaultTopic else t
  | Option.none => defaultTopic

/-- One Plan step, as built by `create_plan` (the `note` key is added only by
`update_step`, hence an Option). -/
structure Step where
  id : String
  title : String
  status : String
  note : Option String
deriving Repr, DecidableEq

/-- The Plan dict returned by `create_plan`. -/
structure Plan where
  goal : String
  topic : String
  phone : Option String
  steps : List Step
  required_inputs : List String
  success_criteria : List String
deriving Repr, DecidableEq

/-- The fixed step list of `create_plan` (titles depend only on the topic). -/
def planSteps (topic : String) : List Step :=
  [ { id := "collect_info", title := "解析用户意图与约束",
      status := "pending", note := Option.none },
    { id := "search_topic",
      title := "web_search 检索 " ++ topic ++ " 的可发布要点（不要在APP内搜索）",
      status := "pending", note := Option.none },
    { id := "draft_post", title := "根据搜索结果生成标题与正文草稿",
      status := "pending", note := Option.none },
    { id := "open_xhs", title := "手机端打开小红书",
      status := "pending", note := Option.none },
    { id := "publish_note", title := "手机端点击发布按钮→选图→填写标题正文→发布",
      status := "pending", note := Option.none } ]

/-- `create_plan` from src/src/workflows/xhs_publish.py. -/
def create_plan (user_message : String) : Plan :=
  let topic := extractTopic user_message
  let phone := extract_phone user_message
  { goal := "发布小红书帖子"
    topic := topic
    phone := phone
    steps := planSteps topic
    required_inputs := (if phone.isNone then ["phone"] else []) ++ ["sms_code"]
    success_criteria :=
      ["已触发验证码发送", "已生成可发布标题与正文", "用户提供验证码后可继续登录发布"] }

/-- Update the first step whose id matches, as `update_step`'s loop with break. -/
def updateFirstStep (steps : List Step) (step_id status note : String) : List Step :=
  match steps with
  | [] => []
  | s :: rest =>
    if s.id = step_id then
      { s with status := status,
               note := if note = "" then s.note else Option.some note } :: rest
    else
      s :: updateFirstStep rest step_id status note

/-- `update_step` from src/src/workflows/xhs_publish.py. -/
def update_step (plan : Plan) (step_id status note : String) : Plan :=
  { plan with steps := updateFirstStep plan.steps step_id status note }

/-
  src/src/android_tool.py
-/

/-- Decimal digit value, for the digit classes exercised here: ASCII and
fullwidth digits.  Python float() accepts every Unicode decimal digit; other
blocks are not modelled. -/
def pyDigitVal (c : Char) : Option Nat :=
  if 48 ≤ c.toNat && c.toNat ≤ 57 then Option.some (c.toNat - 48)
  else if 0xFF10 ≤ c.toNat && c.toNat ≤ 0xFF19 then Option.some (c.toNat - 0xFF10)
  else Option.none

/-- Continue a PEP-515 digit run after at least one digit: further digits,
with single underscores allowed strictly between digits.  A trailing or
doubled underscore is left in the rest (making the overall parse fail on the
leftover, as float() does). -/
def takeDigitsUAfter : List Char → List Nat × List Char
  | [] => ([], [])
  | c :: rest =>
    match pyDigitVal c with
    | Option.some d =>
      let p := takeDigitsUAfter rest
      (d :: p.1, p.2)
    | Option.none =>
      if c = '_' then
        match rest with
        | c2 :: rest2 =>
          match pyDigitVal c2 with
          | Option.some d =>
            let p := takeDigitsUAfter rest2
            (d :: p.1, p.2)
          | Option.none => ([], c :: rest)
        | [] => ([], [c])
      else ([], c :: rest)

/-- A PEP-515 digit run: leading digit, then digits with single underscores
between digits.  Returns the digit values and the rest. -/
def takeDigitsU (cs : List Char) : List Nat × List Char :=
  match cs with
  | [] => ([], [])
  | c :: rest =>
    match pyDigitVal c with
    | Option.some d =>
      let p := takeDigitsUAfter rest
      (d :: p.1, p.2)
    | Option.none => ([], cs)

/-- Digit values to a natural number. -/
def digitsVal (ds : List Nat) : Nat :=
  ds.foldl (fun acc d => 10 * acc + d) 0

/-- Optional sign at the head; returns (negative?, rest). -/
def takeSign : List Char → Bool × List Char
  | '-' :: cs => (true, cs)
  | '+' :: cs => (false, cs)
  | cs => (false, cs)

/-- What float() can hand to int(): a finite value (already truncated toward
zero), an infinity, or NaN. -/
inductive PyFloatVal where
  | finite (trunc : Int)
  | infinite (neg : Bool)
  | nan
deriving Repr, DecidableEq

/-- The smallest exact decimal magnitude that strtod rounds up to infinity:
the midpoint between the largest finite double (2^1024 - 2^971) and 2^1024;
the tie rounds away because that double's mantissa is odd. -/
def overflowThreshold : Nat := 2 ^ 1024 - 2 ^ 970

/-- `int(float(s))` on an already-stripped string.  Parses as Python float()
does: optional sign; the words inf/infinity/nan case-insensitively; otherwise
digits with PEP-515 underscores, optional fraction and exponent.  A finite
value is truncated toward zero; a magnitude at or above `overflowThreshold`
overflows to infinity.  Finite values are truncated from the exact decimal
(the rounding to the nearest double is not modelled; it never changes the
sign and zero tests the validation below depends on).  The early 309 / nd
branches are shortcuts that agree with the exact comparison and keep the
powers of ten small. -/
def parsePyFloat (s : String) : Option PyFloatVal :=
  let sgn := takeSign s.toList
  let neg := sgn.1
  let cs := sgn.2
  let low := cs.map Char.toLower
  if low = "inf".toList || low = "infinity".toList then
    Option.some (PyFloatVal.infinite neg)
  else if low = "nan".toList then
    Option.some PyFloatVal.nan
  else
    let p1 := takeDigitsU cs
    let ip := p1.1
    let p2 :=
      match p1.2 with
      | '.' :: cs2 => takeDigitsU cs2
      | cs2 => ([], cs2)
    let fp := p2.1
    let afterFrac := if ip.isEmpty && fp.isEmpty then p1.2 else p2.2
    if ip.isEmpty && fp.isEmpty then Option.none
    else
      let pe : Option (Int × List Char) :=
        match afterFrac with
        | 'e' :: cs3 | 'E' :: cs3 =>
          let se := takeSign cs3
          let pd := takeDigitsU se.2
          if pd.1.isEmpty then Option.none
          else
            let mag : Int := Int.ofNat (digitsVal pd.1)
            Option.some ((if se.1 then -mag else mag), pd.2)
        | cs3 => Option.some (0, cs3)
      match pe with
      | Option.none => Option.none
      | Option.some (e, rest) =>
        if !rest.isEmpty then Option.none
        else
          let mant := digitsVal (ip ++ fp)
          let nd : Int := Int.ofNat (ip.length + fp.length)
          let scale : Int := e - Int.ofNat fp.length
          if mant = 0 then Option.some (PyFloatVal.finite 0)
          else if 309 ≤ scale then Option.some (PyFloatVal.infinite neg)
          else if scale + nd ≤ 0 then Option.some (PyFloatVal.finite 0)
          else
            let overflow :=
              if 0 ≤ scale then overflowThreshold ≤ mant * 10 ^ scale.toNat
              else overflowThreshold * 10 ^ (-scale).toNat ≤ mant
            if overflow then Option.some (PyFloatVal.infinite neg)
            else
              let mag : Nat :=
                if 0 ≤ scale then mant * 10 ^ scale.toNat
                else mant / 10 ^ (-scale).toNat
              Option.some (PyFloatVal.finite
                (if neg then -(Int.ofNat mag) else Int.ofNat mag))

/-- `int(float(str(val).strip()))` on a non-list value: unparsable text
raises ValueError; an infinite float makes int() raise OverflowError; NaN
makes int() raise ValueError. -/
def coerceScalar (v : PyVal) : Except PyExc Int :=
  match parsePyFloat (pyStrip (pyStr v)) with
  | Option.none =>
    Except.error ⟨"ValueError", "could not convert string to float"⟩
  | Option.some (PyFloatVal.finite n) => Except.ok n
  | Option.some (PyFloatVal.infinite _) =>
    Except.error ⟨"OverflowError", "cannot convert float infinity to integer"⟩
  | Option.some PyFloatVal.nan =>
    Except.error ⟨"ValueError", "cannot convert float NaN to integer"⟩

/-- `_coerce_int`: a list or tuple is replaced by its first element (both
branches of the source conditional take element 0; an empty list raises
IndexError), then coerced via `int(float(str(val).strip()))`. -/
def coerce_int (v : PyVal) : Except PyExc Int :=
  match v with
  | PyVal.list [] => Except.error ⟨"IndexError", "list index out of range"⟩
  | PyVal.list (x :: _) => coerceScalar x
  | _ => coerceScalar v

/-- A device session entry of the module-level `_SESSIONS` map: device id plus
whether the rich uiautomator2 driver attached. -/
structure AndroidSession where
  device_id : String
  has_driver : Bool
deriving Repr, DecidableEq

/-- The android session registry. -/
abbrev AndroidSessions := List (String × AndroidSession)

/-- `_get_device_for_session`. -/
def androidFind (ss : AndroidSessions) (sid : String) : Option AndroidSession :=
  match ss with
  | [] => Option.none
  | (k, v) :: rest => if k = sid then Option.some v else androidFind rest sid

/-- A device interaction performed by `tap_coordinates`. -/
inductive DevAction where
  | driverClick (x y : Int)
  | adbTap (x y : Int)
deriving Repr, DecidableEq

/-- Outcome of one `subprocess.run` of adb: completed with a return code and
stderr text, or an exception. -/
inductive AdbRun where
  | ret (returncode : Int) (stderr : String)
  | exc (e : PyExc)

/-- The exception kinds named in tap_coordinates' except clause
`(ValueError, TypeError, IndexError)`. -/
def tapCaughtKinds : List String := ["ValueError", "TypeError", "IndexError"]

/-- The failure dict built in the except branch (message abbreviated). -/
def invalidCoordsResult : Dict :=
  [("success", PyVal.bool false), ("error", PyVal.str "invalid_coordinates"),
   ("message", PyVal.str "coordinates not valid integers")]

/-- The `tap_coordinates` body after successful coercion: the positivity
check, session lookup, then rich-driver click with adb `input tap` fallback.
The second component records every device interaction attempted. -/
def tap_validated (sessions : AndroidSessions)
    (driver_click : Int → Int → Except PyExc Unit)
    (adb_tap : Int → Int → AdbRun)
    (session_id : String) (x y : Int) : Dict × List DevAction :=
  if x ≤ 0 || y ≤ 0 then
    ([("success", PyVal.bool false), ("error", PyVal.str "invalid_coordinates"),
      ("message", PyVal.str ("Coordinates must be positive: x=" ++ toString x
        ++ ", y=" ++ toString y))], [])
  else
    match androidFind sessions session_id with
    | Option.none =>
      ([("success", PyVal.bool false), ("error", PyVal.str "session_not_found")], [])
    | Option.some sess =>
      let adbPath : List DevAction → Dict × List DevAction := fun acts =>
        match adb_tap x y with
        | AdbRun.ret 0 _ =>
          ([("success", PyVal.bool true), ("x", PyVal.int x), ("y", PyVal.int y),
            ("method", PyVal.str "adb_input_tap")], acts ++ [DevAction.adbTap x y])
        | AdbRun.ret _ stderr =>
          ([("success", PyVal.bool false), ("error", PyVal.str "adb_error"),
            ("message", PyVal.str stderr)], acts ++ [DevAction.adbTap x y])
        | AdbRun.exc e =>
          ([("success", PyVal.bool false), ("error", PyVal.str "tap_failed"),
            ("message", PyVal.str e.msg)], acts ++ [DevAction.adbTap x y])
      if sess.has_driver then
        match driver_click x y with
        | Except.ok _ =>
          ([("success", PyVal.bool true), ("x", PyVal.int x), ("y", PyVal.int y),
            ("method", PyVal.str "uiautomator2_click")], [DevAction.driverClick x y])
        | Except.error _ => adbPath [DevAction.driverClick x y]
      else
        adbPath []

/-- `tap_coordinates`: the try block coerces x then y; a ValueError,
TypeError or IndexError is caught and yields the invalid_coordinates dict,
while any other exception — notably the OverflowError int() raises on an
infinite float — propagates to the caller.  The external driver and adb
effects are oracles. -/
def tap_coordinates (sessions : AndroidSessions)
    (driver_click : Int → Int → Except PyExc Unit)
    (adb_tap : Int → Int → AdbRun)
    (session_id : String) (xv yv : PyVal) : Except PyExc (Dict × List DevAction) :=
  match coerce_int xv with
  | Except.error e =>
    if tapCaughtKinds.contains e.kind then Except.ok (invalidCoordsResult, [])
    else Except.error e
  | Except.ok x =>
    match coerce_int yv with
    | Except.error e =>
      if tapCaughtKinds.contains e.kind then Except.ok (invalidCoordsResult, [])
      else Except.error e
    | Except.ok y =>
      Except.ok (tap_validated sessions driver_click adb_tap session_id x y)

/-
  src/src/browser_tool.py — the singleton browser session registry.
  Live playwright handles are opaque (Unit); `_SESSIONS` is an ordered map.
-/

/-- The browser session registry `_SESSIONS`. -/
abbrev BrowserSessions := List (String × Unit)

/-- `_start_session_impl`: reuse the first existing session, otherwise launch
a browser (the launch may fail, modelled by `launch_ok`) and register a fresh
uuid.  Returns the updated registry and the result (or the launch exception). -/
def start_session_impl (fresh : String) (launch_ok : Bool) (ss : BrowserSessions) :
    BrowserSessions × Except PyExc Dict :=
  match ss with
  | (sid, _) :: _ =>
    (ss, Except.ok [("session_id", PyVal.str sid), ("reused", PyVal.bool true)])
  | [] =>
    if launch_ok then
      (ss ++ [(fresh, ())], Except.ok [("session_id", PyVal.str fresh)])
    else
      (ss, Except.error ⟨"Error", "playwright launch failed"⟩)

/-- Remove a session id from the registry (Python `dict.pop`). -/
def removeSession : BrowserSessions → String → BrowserSessions
  | [], _ => []
  | (k, v) :: rest, sid => if k = sid then rest else (k, v) :: removeSession rest sid

/-- Whether the registry holds a session id. -/
def hasSession (ss : BrowserSessions) (sid : String) : Bool :=
  ss.any (fun p => p.1 = sid)

/-- `_close_session_impl`: pop the session; absent ids give `session_not_found`.
The pop precedes driver teardown, whose effects are elided here. -/
def close_session_impl (sid : String) (ss : BrowserSessions) : BrowserSessions × Dict :=
  if hasSession ss sid then
    (removeSession ss sid, [("success", PyVal.bool true)])
  else
    (ss, [("success", PyVal.bool false), ("error", PyVal.str "session_not_found")])

/-- A registry operation: a start request (with the uuid it would mint and the
launch outcome) or a close request. -/
inductive BrowserOp where
  | start (fresh : String) (launch_ok : Bool)
  | close (sid : String)

/-- Run a sequence of start/close operations against the registry. -/
def runBrowserOps (ops : List BrowserOp) (ss : BrowserSessions) : BrowserSessions :=
  match ops with
  | [] => ss
  | BrowserOp.start fresh ok :: rest => runBrowserOps rest (start_session_impl fresh ok ss).1
  | BrowserOp.close sid :: rest => runBrowserOps rest (close_session_impl sid ss).1

/-
  src/src/skills/__init__.py — the dispatch table `execute_skill`.
-/

/-- Generic first-occurrence association lookup. -/
def assocLookup {α : Type} (d : List (String × α)) (k : String) : Option α :=
  match d with
  | [] => Option.none
  | (k', v) :: rest => if k' = k then Option.some v else assocLookup rest k

/-- The Python call signature of one `skill_*` wrapper: parameter names after
`ctx`, split into those without and with defaults.  `ignores_args` marks
`android_list_devices`, which the dispatcher calls without `**arguments`. -/
structure SkillSig where
  required : List String
  optional : List String
  ignores_args : Bool
deriving Repr, DecidableEq

/-- A wrapper signature that consumes `**arguments`. -/
def sig (req opt : List String) : SkillSig := ⟨req, opt, false⟩

/-- The skill dispatch table of `execute_skill`, one entry per `if name ==`
branch, with each wrapper's parameter names. -/
def skills_table : List (String × SkillSig) :=
  [ ("generate_novel_illustrations",
      sig ["novel_path"] ["output_dir", "generate_markdown", "run_all", "confirm_steps"]),
    ("generate_image_from_text", sig ["text"] ["output_dir", "output_filename"]),
    ("web_search", sig ["query"] ["top_k"]),
    ("browser_start", sig [] ["headless"]),
    ("browser_open", sig ["session_id", "url"] ["wait_ms"]),
    ("browser_fill", sig ["session_id", "selector", "text"] []),
    ("browser_click", sig ["session_id", "selector"] []),
    ("browser_get_text", sig ["session_id"] ["selector", "max_chars"]),
    ("browser_get_page_source", sig ["session_id"] ["max_chars"]),
    ("browser_screenshot", sig ["session_id", "screenshot_path"] ["full_page"]),
    ("browser_close", sig ["session_id"] []),
    ("browser_get_visible_inputs", sig ["session_id"] []),
    ("browser_fill_by_placeholder", sig ["session_id", "placeholder_substring", "text"] []),
    ("browser_click_by_text", sig ["session_id", "text_substring"] []),
    ("browser_check_agreement", sig ["session_id"] []),
    ("android_list_devices", ⟨[], [], true⟩),
    ("android_start", sig [] ["device_id"]),
    ("android_stop", sig ["session_id"] []),
    ("android_open_app", sig ["session_id", "package"] []),
    ("android_tap_text", sig ["session_id", "text"] []),
    ("android_tap_coordinates", sig ["session_id", "x", "y"] []),
    ("android_tap_percent", sig ["session_id", "x_pct", "y_pct"] []),
    ("android_tap_resource_id", sig ["session_id", "resource_id"] []),
    ("android_tap_content_desc", sig ["session_id", "desc"] []),
    ("android_swipe",
      sig ["session_id"] ["direction", "distance_pct", "duration_ms"]),
    ("android_find_elements",
      sig ["session_id"] ["text", "resource_id", "content_desc", "class_name", "max_results"]),
    ("android_input_text", sig ["session_id", "text"] ["clear"]),
    ("android_press_key", sig ["session_id", "key"] []),
    ("android_dump_ui", sig ["session_id"] ["max_chars"]),
    ("android_screenshot", sig ["session_id", "output_path"] []),
    ("android_wait", sig ["session_id"] ["wait_ms"]),
    ("android_get_screen_size", sig ["session_id"] []) ]

/-- Look a skill name up in the dispatch table. -/
def lookupSkill (name : String) : Option SkillSig :=
  assocLookup skills_table name

/-- The keys of an argument dict. -/
def dictKeys (d : Dict) : List String := d.map Prod.fst

/-- Python keyword binding of `skill_xxx(ctx, **arguments)`: an unexpected or
missing keyword raises TypeError; nothing is bound for `ignores_args`. -/
def bindArgs (s : SkillSig) (args : Dict) : Except PyExc Unit :=
  if s.ignores_args then Except.ok ()
  else
    let unexpected :=
      (dictKeys args).filter (fun k => !(s.required.contains k || s.optional.contains k))
    if !unexpected.isEmpty then
      Except.error ⟨"TypeError", "got an unexpected keyword argument"⟩
    else
      let missing := s.required.filter (fun p => !hasKey args p)
      if !missing.isEmpty then
        Except.error ⟨"TypeError", "missing required positional argument"⟩
      else
        Except.ok ()

/-- A skill call either returns a ToolResult dict or raises. -/
abbrev PyResult := Except PyExc Dict

/-- The skill implementations behind the wrappers (external effects: browser
worker, adb, search API, image backend), as an oracle keyed by skill name. -/
abbrev Impls := String → Dict → PyResult

/-- `execute_skill`: a plain name-keyed if-chain with no exception handling —
a TypeError from keyword binding, or any exception the implementation raises,
propagates to the caller; an unknown name returns an error dict. -/
def execute_skill (impls : Impls) (name : String) (args : Dict) : PyResult :=
  match lookupSkill name with
  | Option.none => Except.ok [("error", PyVal.str ("Unknown skill: " ++ name))]
  | Option.some s =>
    match bindArgs s args with
    | Except.error e => Except.error e
    | Except.ok _ => impls name args

/-
  src/src/chat_agent.py — session injection, policy gate, per-result
  conversation handling, and the review phase of ChatAgent.chat.
-/

/-- Python `name.startswith(p)`. -/
def strStarts (s p : String) : Bool :=
  isPrefixOfChars p.toList s.toList

/-- Browser skills that get automatic session injection (prefix classification
excluding start and close). -/
def browserSessionScoped (name : String) : Bool :=
  strStarts name "browser_" &&
  !(["browser_start", "browser_close"].contains name)

/-- Android skills that get automatic session injection (prefix classification
excluding start, list_devices and stop). -/
def androidSessionScoped (name : String) : Bool :=
  strStarts name "android_" &&
  !(["android_start", "android_list_devices", "android_stop"].contains name)

/-- Truthiness of an active-session variable (None, or a session id string). -/
def optTruthy : Option String → Bool
  | Option.none => false
  | Option.some s => s ≠ ""

/-- The two session-injection conditionals of the tool-call loop: a session
id is added to the arguments when the skill is session-scoped, the arguments
lack one, and an active session of the matching kind exists. -/
def inject_session (activeB activeA : Option String) (name : String) (args : Dict) : Dict :=
  let args1 :=
    if browserSessionScoped name && !hasKey args "session_id" && optTruthy activeB then
      args ++ [("session_id", PyVal.str (activeB.getD ""))]
    else args
  if androidSessionScoped name && !hasKey args1 "session_id" && optTruthy activeA then
    args1 ++ [("session_id", PyVal.str (activeA.getD ""))]
  else args1

/-- The rejection dict built for browser skills under the mobile-only policy. -/
def disabledResult : Dict :=
  [("success", PyVal.bool false), ("error", PyVal.str "pc_browser_disabled"),
   ("message", PyVal.str "This Xiaohongshu task must run on Android tools.")]

/-- The dispatch decision chain of the tool-call loop: the mobile-only policy
gate, the start-reuse shortcuts, then `execute_skill`.  The boolean records
whether `execute_skill` was invoked. -/
def policy_dispatch (mobile_only : Bool) (activeB activeA : Option String)
    (impls : Impls) (name : String) (args : Dict) : PyResult × Bool :=
  if mobile_only && strStarts name "browser_" then
    (Except.ok disabledResult, false)
  else if name = "browser_start" && optTruthy activeB then
    (Except.ok [("session_id", PyVal.str (activeB.getD "")),
                ("reused_by_orchestrator", PyVal.bool true)], false)
  else if name = "android_start" && optTruthy activeA then
    (Except.ok [("success", PyVal.bool true), ("session_id", PyVal.str (activeA.getD "")),
                ("reused_by_orchestrator", PyVal.bool true)], false)
  else
    (execute_skill impls name args, true)

/-- One Conversation message. -/
structure Message where
  role : String
  content : PyVal

/-- Escape for the JSON rendering of tool results. -/
def jsonEscape (s : String) : String :=
  String.mk (s.toList.foldr
    (fun c acc =>
      if c = '"' then '\\' :: '"' :: acc
      else if c = '\\' then '\\' :: '\\' :: acc
      else c :: acc) [])

mutual

/-- `json.dumps` of a tool result, as serialized into the tool message. -/
def pyJson : PyVal → String
  | PyVal.none => "null"
  | PyVal.bool b => if b then "true" else "false"
  | PyVal.int n => toString n
  | PyVal.str s => "\"" ++ jsonEscape s ++ "\""
  | PyVal.list xs => "[" ++ pyJsonList xs ++ "]"
  | PyVal.dict xs => "\x7b" ++ pyJsonDict xs ++ "\x7d"

/-- Comma-joined JSON rendering of a list. -/
def pyJsonList : List PyVal → String
  | [] => ""
  | [x] => pyJson x
  | x :: y :: xs => pyJson x ++ ", " ++ pyJsonList (y :: xs)

/-- Comma-joined JSON rendering of dict entries. -/
def pyJsonDict : List (String × PyVal) → String
  | [] => ""
  | [(k, v)] => "\"" ++ jsonEscape k ++ "\": " ++ pyJson v
  | (k, v) :: e :: xs =>
    "\"" ++ jsonEscape k ++ "\": " ++ pyJson v ++ ", " ++ pyJsonDict (e :: xs)

end

/-- The autopilot once-only flags of one chat run. -/
structure AutoFlags where
  filled_phone : Bool
  checked_agreement : Bool
  clicked_code_btn : Bool

/-- The loop-local state mutated while recording one tool outcome. -/
structure LoopState where
  messages : List Message
  is_game_ui : Bool
  find_empty_streak : Nat
  active_browser : Option String
  active_android : Option String
  screen_w : Nat
  screen_h : Nat
  auto : AutoFlags
  last_screenshot : Option String

/-- `result.get("success")` truthiness. -/
def dictSuccessTruthy (r : Dict) : Bool :=
  pyTruthy (dictGetD r "success" PyVal.none)

/-- `result.get("error") or result.get("message") or "unknown_error"`. -/
def failureErr (r : Dict) : PyVal :=
  let e := dictGetD r "error" PyVal.none
  if pyTruthy e then e
  else
    let m := dictGetD r "message" PyVal.none
    if pyTruthy m then m else PyVal.str "unknown_error"

/-- The corrective system message appended after a failed tool result. -/
def correctiveText (name : String) (err : PyVal) : String :=
  "工具 " ++ name ++ " 执行失败，错误=" ++ pyStr err ++ "。" ++
  "你必须承认失败并调整策略：不要重复从头启动会话；" ++
  "优先复用当前 session，重新读取页面元素后再重试。"

/-- Recognize the corrective system message by its fixed lead-in. -/
def isCorrectiveMsg (m : Message) : Bool :=
  m.role = "system" &&
  (match m.content with
   | PyVal.str s => isPrefixOfChars "工具 ".toList s.toList
   | _ => false)

/-- Number of corrective system messages in a conversation. -/
def correctiveCount (ms : List Message) : Nat :=
  ms.countP isCorrectiveMsg

/-- `result.get("xml") or ""` as text. -/
def xmlTextOf (r : Dict) : String :=
  let v := dictGetD r "xml" PyVal.none
  if pyTruthy v then pyStr v else ""

/-- The constant part of the game-mode instruction appended on a small dump. -/
def gameMsgDumpHead : String :=
  "⚠️ 游戏模式已激活：当前为游戏引擎渲染界面，dump_ui/find_elements 无法识别任何游戏内元素。\n" ++
  "请切换为【游戏引擎界面策略】：\n" ++
  "- 不要再调用 android_find_elements / android_dump_ui / android_tap_text\n" ++
  "- 截图上有红色坐标网格参考线，根据网格读取目标的像素坐标\n" ++
  "- 直接用 android_tap_coordinates 点击，点击后截图确认\n" ++
  "- 如果点击无效，在附近 ±30~50px 偏移重试\n"

/-- The game-mode system instruction appended on a small UI dump. -/
def gameMsgDump (w h : Nat) : String :=
  gameMsgDumpHead ++
  (if w ≠ 0 then "- 屏幕分辨率: " ++ toString w ++ "×" ++ toString h ++ "\n" else "")

/-- The constant part of the game-mode instruction after empty searches. -/
def gameMsgFindHead : String :=
  "⚠️ 游戏模式已激活：find_elements 连续返回空，当前界面可能是游戏引擎渲染。\n" ++
  "请停止调用 android_find_elements / android_dump_ui / android_tap_text。\n" ++
  "改为截图后根据坐标网格直接 android_tap_coordinates 点击。\n"

/-- The game-mode system instruction appended after empty element searches. -/
def gameMsgFind (w h : Nat) : String :=
  gameMsgFindHead ++
  (if w ≠ 0 then "屏幕分辨率: " ++ toString w ++ "×" ++ toString h ++ "\n" else "")

/-- `found = result.get("count", 0) or len(result.get("elements") or [])`,
compared with zero. -/
def findFoundZero (r : Dict) : Bool :=
  let cnt := dictGetD r "count" (PyVal.int 0)
  if pyTruthy cnt then false
  else
    let elems := dictGetD r "elements" PyVal.none
    pyLen (if pyTruthy elems then elems else PyVal.list []) = 0

/-- `result.get("screenshot") or result.get("path") or ""`. -/
def screenshotPathOf (r : Dict) : String :=
  let a := dictGetD r "screenshot" PyVal.none
  if pyTruthy a then pyStr a
  else
    let b := dictGetD r "path" PyVal.none
    if pyTruthy b then pyStr b else ""

/-- Apply a `get_screen_size` fetch when the guard held and the call
succeeded (the oracle carries the width and height it reported). -/
def maybeFetchSize (cond : Bool) (size_oracle : Option (Nat × Nat))
    (s : LoopState) : LoopState :=
  if cond then
    match size_oracle with
    | Option.some (w, h) => { s with screen_w := w, screen_h := h }
    | Option.none => s
  else s

/-- Loop lines 639-643: update the active session pointers from a result
carrying a truthy `session_id`. -/
def recordSessionPointer (name : String) (result : PyVal) (s : LoopState) : LoopState :=
  match result with
  | PyVal.dict r =>
    if pyTruthy (dictGetD r "session_id" PyVal.none) then
      let sid := pyStr (dictGetD r "session_id" PyVal.none)
      { s with
        active_browser :=
          if strStarts name "browser_" then Option.some sid else s.active_browser,
        active_android :=
          if strStarts name "android_" then Option.some sid else s.active_android }
    else s
  | _ => s

/-- Loop lines 644-651: append the serialized tool result as a tool message. -/
def recordToolMessage (result : PyVal) (s : LoopState) : LoopState :=
  { s with messages := s.messages ++ [⟨"tool", PyVal.str (pyJson result)⟩] }

/-- Loop lines 652-664: append the corrective system message when the result
carries an explicit `success: False`. -/
def recordFailure (name : String) (result : PyVal) (s : LoopState) : LoopState :=
  match result with
  | PyVal.dict r =>
    if isFalseLit (dictGetD r "success" PyVal.none) then
      { s with messages :=
          s.messages ++ [⟨"system", PyVal.str (correctiveText name (failureErr r))⟩] }
    else s
  | _ => s

/-- Loop lines 668-691: game-mode detection on a successful but implausibly
small `android_dump_ui` result. -/
def detectGameDump (size_oracle : Option (Nat × Nat))
    (name : String) (result : PyVal) (s : LoopState) : LoopState :=
  match result with
  | PyVal.dict r =>
    if name = "android_dump_ui" && dictSuccessTruthy r then
      let xml := xmlTextOf r
      let nodes := strCount xml "<node" + strCount xml "<android."
      if !s.is_game_ui && (xml.length < 3000 || nodes < 5) then
        let sa := { s with is_game_ui := true }
        let sb := maybeFetchSize (optTruthy sa.active_android && sa.screen_w = 0)
          size_oracle sa
        { sb with messages :=
            sb.messages ++ [⟨"system", PyVal.str (gameMsgDump sb.screen_w sb.screen_h)⟩] }
      else s
    else s
  | _ => s

/-- Loop lines 692-715: the consecutive-empty-search counter and game-mode
detection for `android_find_elements` (applies to any dict result). -/
def detectGameFind (size_oracle : Option (Nat × Nat))
    (name : String) (result : PyVal) (s : LoopState) : LoopState :=
  match result with
  | PyVal.dict r =>
    if name = "android_find_elements" then
      let streak := if findFoundZero r then s.find_empty_streak + 1 else 0
      let sa := { s with find_empty_streak := streak }
      if !sa.is_game_ui && 2 ≤ streak then
        let sb := { sa with is_game_ui := true }
        let sc := maybeFetchSize (optTruthy sb.active_android && sb.screen_w = 0)
          size_oracle sb
        { sc with messages :=
            sc.messages ++ [⟨"system", PyVal.str (gameMsgFind sc.screen_w sc.screen_h)⟩] }
      else sa
    else s
  | _ => s

/-- Loop lines 717-724: fetch the screen size after a successful
`android_start` when it is still unknown. -/
def fetchSizeOnStart (size_oracle : Option (Nat × Nat))
    (name : String) (result : PyVal) (s : LoopState) : LoopState :=
  match result with
  | PyVal.dict r =>
    if name = "android_start" && dictSuccessTruthy r && s.screen_w = 0 then
      let sidOk :=
        pyTruthy (dictGetD r "session_id" PyVal.none) || optTruthy s.active_android
      maybeFetchSize sidOk size_oracle s
    else s
  | _ => s

/-- Loop lines 726-738: remember the screenshot path and, with a vision model
and a successful encode, append the image as a user message.  The caption text
is abbreviated (no claim depends on it). -/
def injectScreenshot (vision : Bool) (encode_oracle : Option String)
    (name : String) (result : PyVal) (s : LoopState) : LoopState :=
  match result with
  | PyVal.dict r =>
    if (name = "android_screenshot" || name = "browser_screenshot")
        && dictSuccessTruthy r then
      let imgPath := screenshotPathOf r
      let sa :=
        if imgPath ≠ "" then { s with last_screenshot := Option.some imgPath } else s
      if imgPath ≠ "" && vision then
        match encode_oracle with
        | Option.some uri =>
          { sa with messages := sa.messages ++
              [⟨"user", PyVal.list [PyVal.str "screenshot_caption", PyVal.str uri]⟩] }
        | Option.none => sa
      else sa
    else s
  | _ => s

/-- Loop lines 739-802: the two login-autopilot hooks, gated on a successful
`android_dump_ui` (mobile-only runs) or `browser_get_visible_inputs` (browser
runs).  The autopilot bodies are oracles constrained by type to their actual
write set, the conversation and the autopilot flags. -/
def runAutoHooks (mobile_only : Bool)
    (auto_dump auto_inputs : LoopState → List Message × AutoFlags)
    (name : String) (result : PyVal) (s : LoopState) : LoopState :=
  match result with
  | PyVal.dict r =>
    if mobile_only && name = "android_dump_ui" && dictSuccessTruthy r then
      let eff := auto_dump s
      { s with messages := eff.1, auto := eff.2 }
    else if !mobile_only && name = "browser_get_visible_inputs" && dictSuccessTruthy r then
      let eff := auto_inputs s
      { s with messages := eff.1, auto := eff.2 }
    else s
  | _ => s

/-- The per-tool-call result recording and heuristic adaptation of
`ChatAgent.chat` (the body of the tool-call loop after a result is obtained),
composed in source order.  External effects are oracles: `size_oracle` is the
outcome of `get_screen_size` and `encode_oracle` the data URI of an encoded
screenshot.  Observer callbacks, the trace list and workflow-plan bookkeeping
are not modelled. -/
def handle_tool_result
    (vision mobile_only : Bool)
    (size_oracle : Option (Nat × Nat))
    (encode_oracle : Option String)
    (auto_dump auto_inputs : LoopState → List Message × AutoFlags)
    (name : String) (result : PyVal) (s0 : LoopState) : LoopState :=
  runAutoHooks mobile_only auto_dump auto_inputs name result
    (injectScreenshot vision encode_oracle name result
      (fetchSizeOnStart size_oracle name result
        (detectGameFind size_oracle name result
          (detectGameDump size_oracle name result
            (recordFailure name result
              (recordToolMessage result
                (recordSessionPointer name result s0)))))))

/-- Run a sequence of tool outcomes through the per-call handler. -/
def runOutcomes
    (vision mobile_only : Bool)
    (size_oracle : Option (Nat × Nat))
    (encode_oracle : Option String)
    (auto_dump auto_inputs : LoopState → List Message × AutoFlags)
    (outs : List (String × PyVal)) (s : LoopState) : LoopState :=
  match outs with
  | [] => s
  | (n, r) :: rest =>
    runOutcomes vision mobile_only size_oracle encode_oracle auto_dump auto_inputs rest
      (handle_tool_result vision mobile_only size_oracle encode_oracle
        auto_dump auto_inputs n r s)

/-- The step-observer success flag computed in `_run_orchestrated_tool`:
`not (isinstance(result, dict) and result.get("success") is False)`. -/
def step_success_flag (result : PyVal) : Bool :=
  !(match result with
    | PyVal.dict r => isFalseLit (dictGetD r "success" PyVal.none)
    | _ => false)

/-- The guard of the tool-insight branch in the loop:
`isinstance(result, dict) and result.get("success") is not False`. -/
def insight_gate (result : PyVal) : Bool :=
  match result with
  | PyVal.dict r => !isFalseLit (dictGetD r "success" PyVal.none)
  | _ => false

/-- Outcome of one reasoning-service call: the reply content, or an exception. -/
inductive LLMCall where
  | ok (content : String)
  | exc (e : PyExc)

/-- The generic apology reply of the failed terminal state. -/
def apologyReply : String := "执行已结束，但未能生成稳定最终回复。"

/-- What the review phase returns to the caller, plus how many
reasoning-service calls it issued. -/
structure ReviewOut where
  state : String
  reply : String
  llm_calls : Nat
deriving Repr, DecidableEq

/-- The round budget of `ChatAgent.chat`. -/
def max_rounds : Nat := 40

/-- The review phase entered when the round budget is exhausted: one
reasoning-service call issued without the tools parameter; a non-empty
stripped reply completes, an empty one or an exception fails with the
generic apology. -/
def review_phase (call : LLMCall) : ReviewOut :=
  match call with
  | LLMCall.ok c =>
    let t := pyStrip c
    if t ≠ "" then ⟨"completed", t, 1⟩ else ⟨"failed", apologyReply, 1⟩
  | LLMCall.exc _ => ⟨"failed", apologyReply, 1⟩

/-
  General lemmas.
-/

/-- A pattern is a prefix of itself followed by anything. -/
theorem isPrefixOfChars_self_append (p t : List Char) :
    isPrefixOfChars p (p ++ t) = true := by
  induction p with
  | nil => rfl
  | cons c cs ih => simp [isPrefixOfChars, ih]

/-- A nonempty pattern is not a prefix of a list with a different head. -/
theorem isPrefixOfChars_ne_head (p : Char) (ps : List Char) (c : Char) (cs : List Char)
    (h : p ≠ c) : isPrefixOfChars (p :: ps) (c :: cs) = false := by
  simp [isPrefixOfChars, h]

/-- toList distributes over string append. -/
theorem strToList_append (a b : String) : (a ++ b).toList = a.toList ++ b.toList :=
  String.data_append a b

/-- Membership from a successful association lookup. -/
theorem assocLookup_mem {α : Type} (d : List (String × α)) (k : String) (v : α)
    (h : assocLookup d k = Option.some v) : (k, v) ∈ d := by
  induction d with
  | nil => simp [assocLookup] at h
  | cons p rest ih =>
    obtain ⟨k2, v2⟩ := p
    by_cases hk : k2 = k
    · subst hk
      simp [assocLookup] at h
      subst h
      exact List.mem_cons_self _ _
    · simp [assocLookup, hk] at h
      exact List.mem_cons_of_mem _ (ih h)

/-- Two distinct satisfying members give a count of at least two. -/
theorem two_le_countP {α : Type} (p : α → Bool) (l : List α) (a b : α)
    (ha : a ∈ l) (hb : b ∈ l) (hab : a ≠ b) (hpa : p a = true) (hpb : p b = true) :
    2 ≤ l.countP p := by
  induction l with
  | nil => simp at ha
  | cons x xs ih =>
    rcases List.mem_cons.mp ha with rfl | ha2
    · rcases List.mem_cons.mp hb with rfl | hb2
      · exact absurd rfl hab
      · have h1 : 0 < xs.countP p := List.countP_pos_iff.mpr ⟨b, hb2, hpb⟩
        rw [List.countP_cons_of_pos _ _ hpa]
        omega
    · rcases List.mem_cons.mp hb with rfl | hb2
      · have h1 : 0 < xs.countP p := List.countP_pos_iff.mpr ⟨a, ha2, hpa⟩
        rw [List.countP_cons_of_pos _ _ hpb]
        omega
      · have := ih ha2 hb2
        rw [List.countP_cons]
        omega

/-
  Claim lemmas for update_step.
-/

/-- `updateFirstStep` leaves a list without the id entirely unchanged. -/
theorem updateFirstStep_no_match (steps : List Step) (sid st nt : String)
    (h : ∀ t ∈ steps, t.id ≠ sid) :
    updateFirstStep steps sid st nt = steps := by
  induction steps with
  | nil => rfl
  | cons s rest ih =>
    have hs : s.id ≠ sid := h s (List.mem_cons_self s rest)
    simp only [updateFirstStep, if_neg hs]
    rw [ih (fun t ht => h t (List.mem_cons_of_mem s ht))]

/-- `updateFirstStep` rewrites exactly the first matching step, or nothing. -/
theorem updateFirstStep_spec (steps : List Step) (sid st nt : String) :
    (∃ pre s rest,
        steps = pre ++ s :: rest ∧ (∀ t ∈ pre, t.id ≠ sid) ∧ s.id = sid ∧
        updateFirstStep steps sid st nt =
          pre ++ { s with status := st,
                          note := if nt = "" then s.note else Option.some nt } :: rest) ∨
    ((∀ t ∈ steps, t.id ≠ sid) ∧ updateFirstStep steps sid st nt = steps) := by
  induction steps with
  | nil => right; exact ⟨by simp, rfl⟩
  | cons s rest ih =>
    by_cases hs : s.id = sid
    · left
      exact ⟨[], s, rest, by simp, by simp, hs, by simp [updateFirstStep, if_pos hs]⟩
    · rcases ih with ⟨pre, t, r2, hsteps, hpre, hid, heq⟩ | ⟨hall, heq⟩
      · left
        refine ⟨s :: pre, t, r2, by simp [hsteps], ?_, hid, ?_⟩
        · intro u hu
          rcases List.mem_cons.mp hu with rfl | h2
          · exact hs
          · exact hpre u h2
        · simp only [updateFirstStep, if_neg hs, heq]
          simp
      · right
        refine ⟨?_, by simp only [updateFirstStep, if_neg hs, heq]⟩
        intro u hu
        rcases List.mem_cons.mp hu with rfl | h2
        · exact hs
        · exact hall u h2

/-- Claim C10: update_step modifies at most the first step whose id equals
step_id (setting its status, and its note when a non-empty note is given) and
leaves every other step and every other field of the plan unchanged; if no
step has that id — as for the loop's updates to the nonexistent prepare_login
step — the plan is returned entirely unchanged and no error is signalled. -/
theorem C10_update_step_frame (plan : Plan) (step_id status note : String) :
    ((update_step plan step_id status note).goal = plan.goal ∧
     (update_step plan step_id status note).topic = plan.topic ∧
     (update_step plan step_id status note).phone = plan.phone ∧
     (update_step plan step_id status note).required_inputs = plan.required_inputs ∧
     (update_step plan step_id status note).success_criteria = plan.success_criteria) ∧
    ((∃ pre s rest,
        plan.steps = pre ++ s :: rest ∧ (∀ t ∈ pre, t.id ≠ step_id) ∧ s.id = step_id ∧
        (update_step plan step_id status note).steps =
          pre ++ { s with status := status,
                          note := if note = "" then s.note else Option.some note } :: rest) ∨
     ((∀ t ∈ plan.steps, t.id ≠ step_id) ∧ update_step plan step_id status note = plan)) ∧
    (∀ msg st nt, update_step (create_plan msg) "prepare_login" st nt = create_plan msg) := by
  refine ⟨⟨rfl, rfl, rfl, rfl, rfl⟩, ?_, ?_⟩
  · rcases updateFirstStep_spec plan.steps step_id status note with
      ⟨pre, s, rest, hsteps, hpre, hid, heq⟩ | ⟨hall, heq⟩
    · exact Or.inl ⟨pre, s, rest, hsteps, hpre, hid, heq⟩
    · exact Or.inr ⟨hall, by simp [update_step, heq]⟩
  · intro msg st nt
    have h : ∀ t ∈ (create_plan msg).steps, t.id ≠ "prepare_login" := by
      intro t ht
      simp [create_plan, planSteps] at ht
      rcases ht with rfl | rfl | rfl | rfl | rfl <;> simp
    simp [update_step, updateFirstStep_no_match _ _ _ _ h]

/-
  Claim C9: the xhs planner.
-/

/-- Claim C9 (amended): for every user message in which the phone extractor
finds a number (it is delimited by word boundaries) and which contains two
distinct intent keywords, the intent is detected and create_plan returns a
Plan whose steps contain open_xhs and whose required_inputs excludes phone
but includes sms_code. -/
theorem C9_xhs_plan (msg k1 k2 : String)
    (h1 : k1 ∈ xhsIntentKeys) (h2 : k2 ∈ xhsIntentKeys) (hne : k1 ≠ k2)
    (hc1 : strContains (pyLower msg) k1 = true)
    (hc2 : strContains (pyLower msg) k2 = true)
    (hp : extract_phone msg ≠ Option.none) :
    detect_xhs_publish_intent msg = true ∧
    (∃ s ∈ (create_plan msg).steps, s.id = "open_xhs") ∧
    "phone" ∉ (create_plan msg).required_inputs ∧
    "sms_code" ∈ (create_plan msg).required_inputs := by
  refine ⟨?_, ?_, ?_, ?_⟩
  · simp only [detect_xhs_publish_intent, decide_eq_true_eq]
    exact two_le_countP _ _ k1 k2 h1 h2 hne hc1 hc2
  · refine ⟨⟨"open_xhs", "手机端打开小红书", "pending", Option.none⟩, ?_, rfl⟩
    simp [create_plan, planSteps]
  · cases hcase : extract_phone msg with
    | none => exact absurd hcase hp
    | some p => simp [create_plan, hcase]
  · cases hcase : extract_phone msg with
    | none => simp [create_plan, hcase]
    | some p => simp [create_plan, hcase]

/-- Claim C9 witness: a message with the phone delimited by spaces. -/
theorem C9_xhs_plan_witness :
    detect_xhs_publish_intent "小红书 帖子 15007473274" = true ∧
    (∃ s ∈ (create_plan "小红书 帖子 15007473274").steps, s.id = "open_xhs") ∧
    "phone" ∉ (create_plan "小红书 帖子 15007473274").required_inputs ∧
    "sms_code" ∈ (create_plan "小红书 帖子 15007473274").required_inputs :=
  C9_xhs_plan "小红书 帖子 15007473274" "小红书" "帖子"
    (by decide) (by decide) (by decide) (by decide) (by decide) (by decide)

/-- Claim C9 counterexample: this message contains the phone number as a
substring and two intent keywords, yet the Plan still demands the phone,
because the digit run follows a CJK word character and the extractor's word
boundary does not match there. -/
theorem C9_counterexample :
    strContains "发布小红书帖子15007473274" "15007473274" = true ∧
    detect_xhs_publish_intent "发布小红书帖子15007473274" = true ∧
    "phone" ∈ (create_plan "发布小红书帖子15007473274").required_inputs := by
  refine ⟨by decide, by decide, by decide⟩

/-
  Claim C3: the browser session registry singleton.
-/

/-- Removing a session never lengthens the registry. -/
theorem removeSession_length_le (ss : BrowserSessions) (sid : String) :
    (removeSession ss sid).length ≤ ss.length := by
  induction ss with
  | nil => simp [removeSession]
  | cons p rest ih =>
    obtain ⟨k, v⟩ := p
    simp only [removeSession]
    split
    · simp
    · simpa using ih

/-- Start/close operations preserve the at-most-one-session bound. -/
theorem runBrowserOps_le_one (ops : List BrowserOp) :
    ∀ ss : BrowserSessions, ss.length ≤ 1 → (runBrowserOps ops ss).length ≤ 1 := by
  induction ops with
  | nil => intro ss h; simpa [runBrowserOps] using h
  | cons op rest ih =>
    intro ss h
    cases op with
    | start fresh ok =>
      cases ss with
      | nil =>
        simp only [runBrowserOps, start_session_impl]
        split
        · exact ih _ (by simp)
        · exact ih _ (by simp)
      | cons p rest2 =>
        obtain ⟨sid, u⟩ := p
        simpa only [runBrowserOps, start_session_impl] using ih _ h
    | close sid =>
      simp only [runBrowserOps, close_session_impl]
      split
      · exact ih _ (le_trans (removeSession_length_le ss sid) h)
      · exact ih _ h

/-- Claim C3: when the registry is non-empty, a start request returns the
existing session id with reused=true and leaves the registry unchanged, and
after any sequence of start/close operations from the empty registry at most
one live session exists. -/
theorem C3_browser_singleton :
    (∀ (sid : String) (u : Unit) (rest : BrowserSessions) (fresh : String) (ok : Bool),
        start_session_impl fresh ok ((sid, u) :: rest) =
          ((sid, u) :: rest,
           Except.ok [("session_id", PyVal.str sid), ("reused", PyVal.bool true)])) ∧
    (∀ ops : List BrowserOp, (runBrowserOps ops []).length ≤ 1) := by
  constructor
  · intro sid u rest fresh ok
    rfl
  · intro ops
    exact runBrowserOps_le_one ops [] (by simp)

/-
  Claim C4: the review phase.
-/

/-- Claim C4: when the round budget R = 40 is exhausted, review issues exactly
one additional no-tools reasoning call; a non-empty reply completes with that
text, an empty reply or an exception fails with the generic apology. -/
theorem C4_review_budget :
    max_rounds = 40 ∧
    (∀ call : LLMCall, (review_phase call).llm_calls = 1) ∧
    (∀ c : String, pyStrip c ≠ "" →
        review_phase (LLMCall.ok c) = ⟨"completed", pyStrip c, 1⟩) ∧
    (∀ c : String, pyStrip c = "" →
        review_phase (LLMCall.ok c) = ⟨"failed", apologyReply, 1⟩) ∧
    (∀ e : PyExc, review_phase (LLMCall.exc e) = ⟨"failed", apologyReply, 1⟩) := by
  refine ⟨rfl, ?_, ?_, ?_, ?_⟩
  · intro call
    cases call with
    | ok c =>
      simp only [review_phase]
      split <;> rfl
    | exc e => rfl
  · intro c h
    simp [review_phase, h]
  · intro c h
    simp [review_phase, h]
  · intro e
    rfl

/-- Claim C4 witness: the review outcome at concrete service replies. -/
theorem C4_review_budget_witness :
    review_phase (LLMCall.ok " done ") = ⟨"completed", "done", 1⟩ ∧
    review_phase (LLMCall.ok "  ") = ⟨"failed", apologyReply, 1⟩ ∧
    review_phase (LLMCall.exc ⟨"RuntimeError", "boom"⟩) = ⟨"failed", apologyReply, 1⟩ := by
  refine ⟨?_, ?_, ?_⟩
  · have h := C4_review_budget.2.2.1 " done " (by decide)
    simpa using h
  · exact C4_review_budget.2.2.2.1 "  " (by decide)
  · exact C4_review_budget.2.2.2.2 ⟨"RuntimeError", "boom"⟩

/-
  Claim C6: tap_coordinates input validation.
-/

/-- Claim C6 (amended): tap_coordinates returns invalid_coordinates and
performs no device interaction whenever the coerced x or y is non-positive or
coercion of either input raises one of the caught kinds ValueError, TypeError
or IndexError (non-numeric text, uncoercible lists, NaN); a single-element
list argument is unwrapped to its scalar before validation.  An input whose
float value is infinite instead makes int() raise OverflowError, which is
outside the except tuple and propagates out of tap_coordinates. -/
theorem C6_tap_coordinates_validation :
    (∀ (sessions : AndroidSessions) (dc : Int → Int → Except PyExc Unit)
        (adb : Int → Int → AdbRun) (sid : String) (xv yv : PyVal),
        (∀ e, coerce_int xv = Except.error e → tapCaughtKinds.contains e.kind = true) →
        (∀ e, coerce_int yv = Except.error e → tapCaughtKinds.contains e.kind = true) →
        (∀ x, coerce_int xv = Except.ok x → ∀ y, coerce_int yv = Except.ok y →
            x ≤ 0 ∨ y ≤ 0) →
        ∃ out, tap_coordinates sessions dc adb sid xv yv = Except.ok out ∧
          dictGetD out.1 "error" PyVal.none = PyVal.str "invalid_coordinates" ∧
          out.2 = []) ∧
    (∀ (sessions : AndroidSessions) (dc : Int → Int → Except PyExc Unit)
        (adb : Int → Int → AdbRun) (sid : String) (v yv : PyVal),
        (∀ xs, v ≠ PyVal.list xs) →
        tap_coordinates sessions dc adb sid (PyVal.list [v]) yv
          = tap_coordinates sessions dc adb sid v yv) ∧
    (∀ (sessions : AndroidSessions) (dc : Int → Int → Except PyExc Unit)
        (adb : Int → Int → AdbRun) (sid : String) (xv yv : PyVal) (e : PyExc),
        coerce_int xv = Except.error e → tapCaughtKinds.contains e.kind = false →
        tap_coordinates sessions dc adb sid xv yv = Except.error e) ∧
    (∀ (sessions : AndroidSessions) (dc : Int → Int → Except PyExc Unit)
        (adb : Int → Int → AdbRun) (sid : String) (xv yv : PyVal) (x : Int)
        (e : PyExc),
        coerce_int xv = Except.ok x → coerce_int yv = Except.error e →
        tapCaughtKinds.contains e.kind = false →
        tap_coordinates sessions dc adb sid xv yv = Except.error e) := by
  refine ⟨?_, ?_, ?_, ?_⟩
  · intro sessions dc adb sid xv yv hcx hcy h
    cases hx : coerce_int xv with
    | error e =>
      refine ⟨(invalidCoordsResult, []), ?_, rfl, rfl⟩
      have hc := hcx e hx
      simp only [tap_coordinates, hx]
      rw [hc]
      simp
    | ok x =>
      cases hy : coerce_int yv with
      | error e =>
        refine ⟨(invalidCoordsResult, []), ?_, rfl, rfl⟩
        have hc := hcy e hy
        simp only [tap_coordinates, hx, hy]
        rw [hc]
        simp
      | ok y =>
        have hb : (x ≤ 0 || y ≤ 0) = true := by
          rcases h x hx y hy with h1 | h1 <;> simp [h1]
        refine ⟨tap_validated sessions dc adb sid x y, ?_, ?_, ?_⟩
        · simp [tap_coordinates, hx, hy]
        · simp [tap_validated, hb, dictGetD, assocFind]
        · simp [tap_validated, hb]
  · intro sessions dc adb sid v yv h
    have hcoe : coerce_int (PyVal.list [v]) = coerce_int v := by
      cases v with
      | list xs => exact absurd rfl (h xs)
      | none => rfl
      | bool b => rfl
      | int n => rfl
      | str s => rfl
      | dict xs => rfl
    unfold tap_coordinates
    rw [hcoe]
  · intro sessions dc adb sid xv yv e hx hnc
    simp only [tap_coordinates, hx]
    rw [hnc]
    simp
  · intro sessions dc adb sid xv yv x e hx hy hnc
    simp only [tap_coordinates, hx, hy]
    rw [hnc]
    simp

set_option exponentiation.threshold 1100 in
set_option maxRecDepth 8000 in
/-- Claim C6 counterexample: the inputs inf and 1e400 parse to an infinite
float, so int() raises OverflowError, which the except tuple does not catch —
tap_coordinates raises instead of returning the invalid_coordinates
ToolResult the claim asserts.  (By contrast, PEP-515 underscore grouping and
fullwidth digits coerce successfully.) -/
theorem C6_counterexample :
    coerce_int (PyVal.str "inf")
      = Except.error ⟨"OverflowError", "cannot convert float infinity to integer"⟩ ∧
    tap_coordinates [] (fun _ _ => Except.ok ()) (fun _ _ => AdbRun.ret 0 "")
        "sid" (PyVal.str "inf") (PyVal.int 5)
      = Except.error ⟨"OverflowError", "cannot convert float infinity to integer"⟩ ∧
    tap_coordinates [] (fun _ _ => Except.ok ()) (fun _ _ => AdbRun.ret 0 "")
        "sid" (PyVal.str "1e400") (PyVal.int 5)
      = Except.error ⟨"OverflowError", "cannot convert float infinity to integer"⟩ ∧
    coerce_int (PyVal.str "1_000") = Except.ok 1000 ∧
    coerce_int (PyVal.str "１０") = Except.ok 10 := by
  refine ⟨by decide, rfl, rfl, by decide, by decide⟩

set_option exponentiation.threshold 1100 in
set_option maxRecDepth 8000 in
/-- Claim C6 witness: a zero x coordinate, a wrapped single-element list, and
the propagating OverflowError at a concrete infinite input. -/
theorem C6_tap_coordinates_witness :
    (∃ out, tap_coordinates [] (fun _ _ => Except.ok ())
        (fun _ _ => AdbRun.ret 0 "") "sid" (PyVal.int 0) (PyVal.int 500)
        = Except.ok out ∧
      dictGetD out.1 "error" PyVal.none = PyVal.str "invalid_coordinates" ∧
      out.2 = []) ∧
    tap_coordinates [] (fun _ _ => Except.ok ()) (fun _ _ => AdbRun.ret 0 "")
        "sid" (PyVal.list [PyVal.str "abc"]) (PyVal.int 3)
      = tap_coordinates [] (fun _ _ => Except.ok ()) (fun _ _ => AdbRun.ret 0 "")
        "sid" (PyVal.str "abc") (PyVal.int 3) ∧
    tap_coordinates [] (fun _ _ => Except.ok ()) (fun _ _ => AdbRun.ret 0 "")
        "sid" (PyVal.str "Infinity") (PyVal.int 7)
      = Except.error ⟨"OverflowError", "cannot convert float infinity to integer"⟩ := by
  refine ⟨?_, ?_, ?_⟩
  · exact C6_tap_coordinates_validation.1 [] (fun _ _ => Except.ok ())
      (fun _ _ => AdbRun.ret 0 "") "sid" (PyVal.int 0) (PyVal.int 500)
      (by
        intro e he
        rw [show coerce_int (PyVal.int 0) = Except.ok 0 by decide] at he
        exact Except.noConfusion he)
      (by
        intro e he
        rw [show coerce_int (PyVal.int 500) = Except.ok 500 by decide] at he
        exact Except.noConfusion he)
      (by
        intro x hx y hy
        have hx0 : coerce_int (PyVal.int 0) = Except.ok 0 := by decide
        rw [hx0] at hx
        have := Except.ok.inj hx
        omega)
  · exact C6_tap_coordinates_validation.2.1 [] (fun _ _ => Except.ok ())
      (fun _ _ => AdbRun.ret 0 "") "sid" (PyVal.str "abc") (PyVal.int 3)
      (fun xs hcontra => PyVal.noConfusion hcontra)
  · exact C6_tap_coordinates_validation.2.2.1 [] (fun _ _ => Except.ok ())
      (fun _ _ => AdbRun.ret 0 "") "sid" (PyVal.str "Infinity") (PyVal.int 7)
      ⟨"OverflowError", "cannot convert float infinity to integer"⟩
      (by decide) (by decide)

/-
  Claim C7: the mobile-only policy gate.
-/

/-- Claim C7 (amended): under the mobile-only policy every browser_-prefixed
call is rejected immediately with success=false and error pc_browser_disabled
and the skill implementation is never invoked. -/
theorem C7_policy_gate (activeB activeA : Option String) (impls : Impls)
    (name : String) (args : Dict) (h : strStarts name "browser_" = true) :
    policy_dispatch true activeB activeA impls name args
      = (Except.ok disabledResult, false) ∧
    dictGetD disabledResult "success" PyVal.none = PyVal.bool false ∧
    dictGetD disabledResult "error" PyVal.none = PyVal.str "pc_browser_disabled" := by
  refine ⟨?_, rfl, rfl⟩
  unfold policy_dispatch
  simp [h]

/-- Claim C7 witness: a mobile-only browser_open call is gated. -/
theorem C7_policy_gate_witness :
    policy_dispatch true Option.none Option.none (fun _ _ => Except.ok [])
        "browser_close" [] = (Except.ok disabledResult, false) :=
  (C7_policy_gate Option.none Option.none (fun _ _ => Except.ok [])
      "browser_close" [] (by decide)).1

/-- Claim C7 counterexample: the gate result carries the error kind
pc_browser_disabled, not the taxonomy kind disabled named by the claim. -/
theorem C7_counterexample :
    (policy_dispatch true Option.none Option.none (fun _ _ => Except.ok [])
        "browser_open" [("url", PyVal.str "https://example.com")]).1
      = Except.ok disabledResult ∧
    dictGetD disabledResult "error" PyVal.none = PyVal.str "pc_browser_disabled" ∧
    PyVal.str "pc_browser_disabled" ≠ PyVal.str "disabled" := by
  refine ⟨rfl, rfl, ?_⟩
  intro hcontra
  exact absurd (PyVal.str.inj hcontra) (by decide)

/-
  Stage lemmas for the per-call handler.
-/

/-- Session-pointer recording does not touch the conversation or the
game-mode heuristics. -/
theorem recordSessionPointer_fields (n : String) (r : PyVal) (s : LoopState) :
    (recordSessionPointer n r s).messages = s.messages ∧
    (recordSessionPointer n r s).is_game_ui = s.is_game_ui ∧
    (recordSessionPointer n r s).find_empty_streak = s.find_empty_streak := by
  cases r with
  | dict d =>
    simp only [recordSessionPointer]
    split <;> exact ⟨rfl, rfl, rfl⟩
  | none => exact ⟨rfl, rfl, rfl⟩
  | bool b => exact ⟨rfl, rfl, rfl⟩
  | int n2 => exact ⟨rfl, rfl, rfl⟩
  | str s2 => exact ⟨rfl, rfl, rfl⟩
  | list l => exact ⟨rfl, rfl, rfl⟩

/-- The tool message append, field by field. -/
theorem recordToolMessage_fields (r : PyVal) (s : LoopState) :
    (recordToolMessage r s).messages
      = s.messages ++ [⟨"tool", PyVal.str (pyJson r)⟩] ∧
    (recordToolMessage r s).is_game_ui = s.is_game_ui ∧
    (recordToolMessage r s).find_empty_streak = s.find_empty_streak :=
  ⟨rfl, rfl, rfl⟩

/-- The corrective append does not touch the game-mode heuristics. -/
theorem recordFailure_fields (n : String) (r : PyVal) (s : LoopState) :
    (recordFailure n r s).is_game_ui = s.is_game_ui ∧
    (recordFailure n r s).find_empty_streak = s.find_empty_streak := by
  cases r with
  | dict d =>
    simp only [recordFailure]
    split <;> exact ⟨rfl, rfl⟩
  | none => exact ⟨rfl, rfl⟩
  | bool b => exact ⟨rfl, rfl⟩
  | int n2 => exact ⟨rfl, rfl⟩
  | str s2 => exact ⟨rfl, rfl⟩
  | list l => exact ⟨rfl, rfl⟩

/-- The corrective system message is appended exactly on an explicit failure. -/
theorem recordFailure_msgs_fail (n : String) (d : Dict) (s : LoopState)
    (h : isFalseLit (dictGetD d "success" PyVal.none) = true) :
    (recordFailure n (PyVal.dict d) s).messages =
      s.messages ++ [⟨"system", PyVal.str (correctiveText n (failureErr d))⟩] := by
  simp [recordFailure, h]

/-- No corrective system message without an explicit failure. -/
theorem recordFailure_msgs_nofail (n : String) (d : Dict) (s : LoopState)
    (h : isFalseLit (dictGetD d "success" PyVal.none) = false) :
    (recordFailure n (PyVal.dict d) s).messages = s.messages := by
  simp [recordFailure, h]

/-- A screen-size fetch touches only the screen dimensions. -/
theorem maybeFetchSize_fields (c : Bool) (so : Option (Nat × Nat)) (s : LoopState) :
    (maybeFetchSize c so s).messages = s.messages ∧
    (maybeFetchSize c so s).is_game_ui = s.is_game_ui ∧
    (maybeFetchSize c so s).find_empty_streak = s.find_empty_streak := by
  unfold maybeFetchSize
  split
  · cases so with
    | some wh =>
      obtain ⟨w, h⟩ := wh
      exact ⟨rfl, rfl, rfl⟩
    | none => exact ⟨rfl, rfl, rfl⟩
  · exact ⟨rfl, rfl, rfl⟩

/-- Dump-based game detection never clears an active game mode. -/
theorem detectGameDump_game_mono (so : Option (Nat × Nat)) (n : String) (r : PyVal)
    (s : LoopState) (h : s.is_game_ui = true) :
    (detectGameDump so n r s).is_game_ui = true := by
  cases r with
  | dict d =>
    simp only [detectGameDump]
    split
    · split
      · exact (maybeFetchSize_fields _ _ _).2.1
      · exact h
    · exact h
  | none => exact h
  | bool b => exact h
  | int n2 => exact h
  | str s2 => exact h
  | list l => exact h

/-- Dump-based game detection does not touch the empty-search counter. -/
theorem detectGameDump_streak (so : Option (Nat × Nat)) (n : String) (r : PyVal)
    (s : LoopState) :
    (detectGameDump so n r s).find_empty_streak = s.find_empty_streak := by
  cases r with
  | dict d =>
    simp only [detectGameDump]
    split
    · split
      · exact (maybeFetchSize_fields _ _ _).2.2
      · rfl
    · rfl
  | none => rfl
  | bool b => rfl
  | int n2 => rfl
  | str s2 => rfl
  | list l => rfl

/-- A successful, implausibly small UI dump activates game mode. -/
theorem detectGameDump_activate (so : Option (Nat × Nat)) (d : Dict) (s : LoopState)
    (hsucc : dictSuccessTruthy d = true)
    (hsmall : (xmlTextOf d).length < 3000 ∨
        strCount (xmlTextOf d) "<node" + strCount (xmlTextOf d) "<android." < 5) :
    (detectGameDump so "android_dump_ui" (PyVal.dict d) s).is_game_ui = true := by
  by_cases hg : s.is_game_ui = true
  · exact detectGameDump_game_mono so _ _ s hg
  · have hg2 : s.is_game_ui = false := by
      cases hval : s.is_game_ui
      · rfl
      · exact absurd hval hg
    have hcond : ((xmlTextOf d).length < 3000 ||
        strCount (xmlTextOf d) "<node" + strCount (xmlTextOf d) "<android." < 5) = true := by
      rcases hsmall with h1 | h1 <;> simp [h1]
    simp only [detectGameDump, hsucc, hg2, hcond]
    simp
    exact (maybeFetchSize_fields _ _ _).2.1

/-- Search-based game detection never clears an active game mode. -/
theorem detectGameFind_game_mono (so : Option (Nat × Nat)) (n : String) (r : PyVal)
    (s : LoopState) (h : s.is_game_ui = true) :
    (detectGameFind so n r s).is_game_ui = true := by
  cases r with
  | dict d =>
    simp only [detectGameFind]
    split
    · split
      · split
        · exact (maybeFetchSize_fields _ _ _).2.1
        · exact h
      · split
        · exact (maybeFetchSize_fields _ _ _).2.1
        · exact h
    · exact h
  | none => exact h
  | bool b => exact h
  | int n2 => exact h
  | str s2 => exact h
  | list l => exact h

/-- The empty-search counter after a find_elements result. -/
theorem detectGameFind_streak_eq (so : Option (Nat × Nat)) (d : Dict) (s : LoopState) :
    (detectGameFind so "android_find_elements" (PyVal.dict d) s).find_empty_streak
      = (if findFoundZero d then s.find_empty_streak + 1 else 0) := by
  simp only [detectGameFind, if_true]
  split
  · split
    · exact (maybeFetchSize_fields _ _ _).2.2
    · rfl
  · split
    · exact (maybeFetchSize_fields _ _ _).2.2
    · rfl

/-- Other skills leave the search-based detection state untouched. -/
theorem detectGameFind_other_name (so : Option (Nat × Nat)) (n : String) (r : PyVal)
    (s : LoopState) (h : n ≠ "android_find_elements") :
    detectGameFind so n r s = s := by
  cases r with
  | dict d => simp [detectGameFind, h]
  | none => rfl
  | bool b => rfl
  | int n2 => rfl
  | str s2 => rfl
  | list l => rfl

/-- A zero-match find_elements result with a positive streak activates game
mode (the streak reaches two). -/
theorem detectGameFind_activate (so : Option (Nat × Nat)) (d : Dict) (s : LoopState)
    (hz : findFoundZero d = true) (hstreak : 1 ≤ s.find_empty_streak) :
    (detectGameFind so "android_find_elements" (PyVal.dict d) s).is_game_ui = true := by
  by_cases hg : s.is_game_ui = true
  · exact detectGameFind_game_mono so _ _ s hg
  · have hg2 : s.is_game_ui = false := by
      cases hval : s.is_game_ui
      · rfl
      · exact absurd hval hg
    simp only [detectGameFind, hz, if_true]
    split
    · exact (maybeFetchSize_fields _ _ _).2.1
    · rename_i hcond
      exfalso
      rw [hg2] at hcond
      simp at hcond
      omega

/-- The android_start size fetch touches only the screen dimensions. -/
theorem fetchSizeOnStart_fields (so : Option (Nat × Nat)) (n : String) (r : PyVal)
    (s : LoopState) :
    (fetchSizeOnStart so n r s).messages = s.messages ∧
    (fetchSizeOnStart so n r s).is_game_ui = s.is_game_ui ∧
    (fetchSizeOnStart so n r s).find_empty_streak = s.find_empty_streak := by
  cases r with
  | dict d =>
    simp only [fetchSizeOnStart]
    split
    · exact maybeFetchSize_fields _ _ _
    · exact ⟨rfl, rfl, rfl⟩
  | none => exact ⟨rfl, rfl, rfl⟩
  | bool b => exact ⟨rfl, rfl, rfl⟩
  | int n2 => exact ⟨rfl, rfl, rfl⟩
  | str s2 => exact ⟨rfl, rfl, rfl⟩
  | list l => exact ⟨rfl, rfl, rfl⟩

/-- Screenshot injection does not touch the game-mode heuristics. -/
theorem injectScreenshot_game_streak (v : Bool) (eo : Option String) (n : String)
    (r : PyVal) (s : LoopState) :
    (injectScreenshot v eo n r s).is_game_ui = s.is_game_ui ∧
    (injectScreenshot v eo n r s).find_empty_streak = s.find_empty_streak := by
  cases r with
  | dict d =>
    constructor <;> (simp only [injectScreenshot]; repeat' split) <;> rfl
  | none => exact ⟨rfl, rfl⟩
  | bool b => exact ⟨rfl, rfl⟩
  | int n2 => exact ⟨rfl, rfl⟩
  | str s2 => exact ⟨rfl, rfl⟩
  | list l => exact ⟨rfl, rfl⟩

/-- The autopilot hooks can rewrite only the conversation and the flags. -/
theorem runAutoHooks_game_streak (mo : Bool)
    (ad ai : LoopState → List Message × AutoFlags) (n : String) (r : PyVal)
    (s : LoopState) :
    (runAutoHooks mo ad ai n r s).is_game_ui = s.is_game_ui ∧
    (runAutoHooks mo ad ai n r s).find_empty_streak = s.find_empty_streak := by
  cases r with
  | dict d =>
    simp only [runAutoHooks]
    split
    · exact ⟨rfl, rfl⟩
    · split <;> exact ⟨rfl, rfl⟩
  | none => exact ⟨rfl, rfl⟩
  | bool b => exact ⟨rfl, rfl⟩
  | int n2 => exact ⟨rfl, rfl⟩
  | str s2 => exact ⟨rfl, rfl⟩
  | list l => exact ⟨rfl, rfl⟩

/-- Without a truthy success the autopilot hooks do nothing. -/
theorem runAutoHooks_not_success (mo : Bool)
    (ad ai : LoopState → List Message × AutoFlags) (n : String) (d : Dict)
    (s : LoopState) (h : dictSuccessTruthy d = false) :
    runAutoHooks mo ad ai n (PyVal.dict d) s = s := by
  simp [runAutoHooks, h]

/-
  Corrective-message counting.
-/

/-- The corrective message carries its fixed lead-in. -/
theorem correctiveText_starts_marker (n : String) (e : PyVal) :
    isPrefixOfChars "工具 ".toList (correctiveText n e).toList = true := by
  unfold correctiveText
  rw [strToList_append]
  exact isPrefixOfChars_self_append _ _

/-- The dump game message does not carry the corrective lead-in. -/
theorem gameMsgDump_no_marker (w h : Nat) :
    isPrefixOfChars "工具 ".toList (gameMsgDump w h).toList = false := by
  unfold gameMsgDump
  rw [strToList_append]
  rw [show gameMsgDumpHead.toList = '⚠' :: gameMsgDumpHead.toList.tail from rfl]
  rw [List.cons_append]
  exact isPrefixOfChars_ne_head _ _ _ _ (by decide)

/-- The find game message does not carry the corrective lead-in. -/
theorem gameMsgFind_no_marker (w h : Nat) :
    isPrefixOfChars "工具 ".toList (gameMsgFind w h).toList = false := by
  unfold gameMsgFind
  rw [strToList_append]
  rw [show gameMsgFindHead.toList = '⚠' :: gameMsgFindHead.toList.tail from rfl]
  rw [List.cons_append]
  exact isPrefixOfChars_ne_head _ _ _ _ (by decide)

/-- A message with a non-system role is never corrective. -/
theorem isCorrectiveMsg_role_ne (role : String) (c : PyVal) (h : role ≠ "system") :
    isCorrectiveMsg ⟨role, c⟩ = false := by
  simp [isCorrectiveMsg, h]

/-- The corrective system message is recognized as corrective. -/
theorem isCorrectiveMsg_corrective (n : String) (e : PyVal) :
    isCorrectiveMsg ⟨"system", PyVal.str (correctiveText n e)⟩ = true := by
  show (decide ("system" = "system") &&
      isPrefixOfChars "工具 ".toList (correctiveText n e).toList) = true
  rw [correctiveText_starts_marker]
  simp

/-- The dump game message is not corrective. -/
theorem isCorrectiveMsg_gameDump (w h : Nat) :
    isCorrectiveMsg ⟨"system", PyVal.str (gameMsgDump w h)⟩ = false := by
  show (decide ("system" = "system") &&
      isPrefixOfChars "工具 ".toList (gameMsgDump w h).toList) = false
  rw [gameMsgDump_no_marker]
  simp

/-- The find game message is not corrective. -/
theorem isCorrectiveMsg_gameFind (w h : Nat) :
    isCorrectiveMsg ⟨"system", PyVal.str (gameMsgFind w h)⟩ = false := by
  show (decide ("system" = "system") &&
      isPrefixOfChars "工具 ".toList (gameMsgFind w h).toList) = false
  rw [gameMsgFind_no_marker]
  simp

/-- Appending one message changes the count by its corrective flag. -/
theorem correctiveCount_append_single (ms : List Message) (m : Message) :
    correctiveCount (ms ++ [m])
      = correctiveCount ms + (if isCorrectiveMsg m then 1 else 0) := by
  simp [correctiveCount, List.countP_append, List.countP_singleton]

/-- Dump-based game detection appends no corrective message. -/
theorem detectGameDump_count (so : Option (Nat × Nat)) (n : String) (r : PyVal)
    (s : LoopState) :
    correctiveCount (detectGameDump so n r s).messages
      = correctiveCount s.messages := by
  cases r with
  | dict d =>
    simp only [detectGameDump]
    split
    · split
      · simp [correctiveCount_append_single, maybeFetchSize_fields,
          isCorrectiveMsg_gameDump]
      · rfl
    · rfl
  | none => rfl
  | bool b => rfl
  | int n2 => rfl
  | str s2 => rfl
  | list l => rfl

/-- Search-based game detection appends no corrective message. -/
theorem detectGameFind_count (so : Option (Nat × Nat)) (n : String) (r : PyVal)
    (s : LoopState) :
    correctiveCount (detectGameFind so n r s).messages
      = correctiveCount s.messages := by
  cases r with
  | dict d =>
    simp only [detectGameFind]
    split
    · split
      · split
        · simp [correctiveCount_append_single, maybeFetchSize_fields,
            isCorrectiveMsg_gameFind]
        · rfl
      · split
        · simp [correctiveCount_append_single, maybeFetchSize_fields,
            isCorrectiveMsg_gameFind]
        · rfl
    · rfl
  | none => rfl
  | bool b => rfl
  | int n2 => rfl
  | str s2 => rfl
  | list l => rfl

/-- Screenshot injection appends no corrective message. -/
theorem injectScreenshot_count (v : Bool) (eo : Option String) (n : String)
    (r : PyVal) (s : LoopState) :
    correctiveCount (injectScreenshot v eo n r s).messages
      = correctiveCount s.messages := by
  cases r with
  | dict d =>
    simp only [injectScreenshot]
    repeat' split
    all_goals
      first
      | rfl
      | (rw [correctiveCount_append_single]
         simp [isCorrectiveMsg_role_ne])
  | none => rfl
  | bool b => rfl
  | int n2 => rfl
  | str s2 => rfl
  | list l => rfl

/-- An explicit False success is falsy. -/
theorem isFalseLit_not_truthy (v : PyVal) (h : isFalseLit v = true) :
    pyTruthy v = false := by
  cases v with
  | bool b =>
    cases b
    · rfl
    · simp [isFalseLit] at h
  | none => rfl
  | int n => simp [isFalseLit] at h
  | str s => simp [isFalseLit] at h
  | list l => simp [isFalseLit] at h
  | dict d => simp [isFalseLit] at h

/-- The corrective count across one full per-call handling step: exactly one
corrective message is appended when the result carries success False, and
none otherwise (assuming no truthy success, which holds in both cases). -/
theorem handle_tool_result_count (vision mobile_only : Bool)
    (so : Option (Nat × Nat)) (eo : Option String)
    (ad ai : LoopState → List Message × AutoFlags)
    (name : String) (d : Dict) (s : LoopState)
    (hsf : dictSuccessTruthy d = false) :
    correctiveCount (handle_tool_result vision mobile_only so eo ad ai name
        (PyVal.dict d) s).messages
      = correctiveCount s.messages +
        (if isFalseLit (dictGetD d "success" PyVal.none) then 1 else 0) := by
  unfold handle_tool_result
  rw [runAutoHooks_not_success _ _ _ _ _ _ hsf]
  rw [injectScreenshot_count, (fetchSizeOnStart_fields _ _ _ _).1,
      detectGameFind_count, detectGameDump_count]
  by_cases hf : isFalseLit (dictGetD d "success" PyVal.none) = true
  · rw [recordFailure_msgs_fail _ _ _ hf]
    rw [correctiveCount_append_single]
    rw [(recordToolMessage_fields _ _).1]
    rw [correctiveCount_append_single]
    rw [(recordSessionPointer_fields _ _ _).1]
    simp [isCorrectiveMsg_corrective, isCorrectiveMsg_role_ne, hf]
  · have hf2 : isFalseLit (dictGetD d "success" PyVal.none) = false := by
      cases hval : isFalseLit (dictGetD d "success" PyVal.none)
      · rfl
      · exact absurd hval hf
    rw [recordFailure_msgs_nofail _ _ _ hf2]
    rw [(recordToolMessage_fields _ _).1]
    rw [correctiveCount_append_single]
    rw [(recordSessionPointer_fields _ _ _).1]
    simp [isCorrectiveMsg_role_ne, hf2]

/-
  Game-mode monotonicity and activation across the full handler.
-/

/-- One handled outcome never clears an active game mode. -/
theorem handle_tool_result_game_mono (vision mobile_only : Bool)
    (so : Option (Nat × Nat)) (eo : Option String)
    (ad ai : LoopState → List Message × AutoFlags)
    (name : String) (r : PyVal) (s : LoopState) (h : s.is_game_ui = true) :
    (handle_tool_result vision mobile_only so eo ad ai name r s).is_game_ui = true := by
  unfold handle_tool_result
  have h1 : (recordSessionPointer name r s).is_game_ui = true :=
    ((recordSessionPointer_fields name r s).2.1).trans h
  have h2 : (recordToolMessage r (recordSessionPointer name r s)).is_game_ui = true :=
    ((recordToolMessage_fields r _).2.1).trans h1
  have h3 : (recordFailure name r
      (recordToolMessage r (recordSessionPointer name r s))).is_game_ui = true :=
    ((recordFailure_fields name r _).1).trans h2
  have h4 := detectGameDump_game_mono so name r _ h3
  have h5 := detectGameFind_game_mono so name r _ h4
  have h6 := ((fetchSizeOnStart_fields so name r _).2.1).trans h5
  have h7 := ((injectScreenshot_game_streak vision eo name r _).1).trans h6
  exact ((runAutoHooks_game_streak mobile_only ad ai name r _).1).trans h7

/-- Any sequence of handled outcomes preserves an active game mode. -/
theorem runOutcomes_game_mono (vision mobile_only : Bool)
    (so : Option (Nat × Nat)) (eo : Option String)
    (ad ai : LoopState → List Message × AutoFlags)
    (outs : List (String × PyVal)) :
    ∀ s : LoopState, s.is_game_ui = true →
      (runOutcomes vision mobile_only so eo ad ai outs s).is_game_ui = true := by
  induction outs with
  | nil => intro s h; exact h
  | cons p rest ih =>
    intro s h
    obtain ⟨n, r⟩ := p
    exact ih _ (handle_tool_result_game_mono vision mobile_only so eo ad ai n r s h)

/-- The empty-search counter after one full handling of a find_elements
result. -/
theorem handle_tool_result_find_streak (vision mobile_only : Bool)
    (so : Option (Nat × Nat)) (eo : Option String)
    (ad ai : LoopState → List Message × AutoFlags) (d : Dict) (s : LoopState) :
    (handle_tool_result vision mobile_only so eo ad ai "android_find_elements"
        (PyVal.dict d) s).find_empty_streak
      = (if findFoundZero d then s.find_empty_streak + 1 else 0) := by
  unfold handle_tool_result
  rw [(runAutoHooks_game_streak _ _ _ _ _ _).2,
      (injectScreenshot_game_streak _ _ _ _ _).2,
      (fetchSizeOnStart_fields _ _ _ _).2.2,
      detectGameFind_streak_eq]
  rw [detectGameDump_streak, (recordFailure_fields _ _ _).2,
      (recordToolMessage_fields _ _).2.2, (recordSessionPointer_fields _ _ _).2.2]

/-- A fresh loop state, as initialized at the top of the executing phase. -/
def initState : LoopState :=
  ⟨[], false, 0, Option.none, Option.none, 0, 0, ⟨false, false, false⟩, Option.none⟩

/-- An autopilot oracle that does nothing. -/
def autoId : LoopState → List Message × AutoFlags :=
  fun s => (s.messages, s.auto)

/-
  Claim C5: game-mode activation and persistence.
-/

/-- Claim C5: within one run, game mode becomes active on a successful but
implausibly small android_dump_ui result (xml below 3000 characters or node
count below 5) or on two consecutive zero-match android_find_elements
results, and once active it stays active: no later tool outcome clears it. -/
theorem C5_game_mode_monotone (vision mobile_only : Bool) (so : Option (Nat × Nat))
    (eo : Option String) (ad ai : LoopState → List Message × AutoFlags) :
    (∀ (outs : List (String × PyVal)) (s : LoopState), s.is_game_ui = true →
        (runOutcomes vision mobile_only so eo ad ai outs s).is_game_ui = true) ∧
    (∀ (s : LoopState) (d : Dict), dictSuccessTruthy d = true →
        ((xmlTextOf d).length < 3000 ∨
          strCount (xmlTextOf d) "<node" + strCount (xmlTextOf d) "<android." < 5) →
        (handle_tool_result vision mobile_only so eo ad ai "android_dump_ui"
            (PyVal.dict d) s).is_game_ui = true) ∧
    (∀ (s : LoopState) (d1 d2 : Dict),
        findFoundZero d1 = true → findFoundZero d2 = true →
        (handle_tool_result vision mobile_only so eo ad ai "android_find_elements"
            (PyVal.dict d2)
            (handle_tool_result vision mobile_only so eo ad ai "android_find_elements"
              (PyVal.dict d1) s)).is_game_ui = true) := by
  refine ⟨runOutcomes_game_mono vision mobile_only so eo ad ai, ?_, ?_⟩
  · intro s d hsucc hsmall
    unfold handle_tool_result
    have h4 := detectGameDump_activate so d
      (recordFailure "android_dump_ui" (PyVal.dict d)
        (recordToolMessage (PyVal.dict d)
          (recordSessionPointer "android_dump_ui" (PyVal.dict d) s))) hsucc hsmall
    have h5 := detectGameFind_game_mono so "android_dump_ui" (PyVal.dict d) _ h4
    have h6 := ((fetchSizeOnStart_fields so "android_dump_ui" (PyVal.dict d) _).2.1).trans h5
    have h7 := ((injectScreenshot_game_streak vision eo "android_dump_ui"
      (PyVal.dict d) _).1).trans h6
    exact ((runAutoHooks_game_streak mobile_only ad ai "android_dump_ui"
      (PyVal.dict d) _).1).trans h7
  · intro s d1 d2 hz1 hz2
    set s1 := handle_tool_result vision mobile_only so eo ad ai
        "android_find_elements" (PyVal.dict d1) s with hs1
    have hstreak1 : 1 ≤ s1.find_empty_streak := by
      rw [hs1, handle_tool_result_find_streak, if_pos hz1]
      omega
    unfold handle_tool_result
    have hpre : (detectGameDump so "android_find_elements" (PyVal.dict d2)
        (recordFailure "android_find_elements" (PyVal.dict d2)
          (recordToolMessage (PyVal.dict d2)
            (recordSessionPointer "android_find_elements" (PyVal.dict d2)
              s1)))).find_empty_streak = s1.find_empty_streak := by
      rw [detectGameDump_streak, (recordFailure_fields _ _ _).2,
          (recordToolMessage_fields _ _).2.2, (recordSessionPointer_fields _ _ _).2.2]
    have hact := detectGameFind_activate so d2
      (detectGameDump so "android_find_elements" (PyVal.dict d2)
        (recordFailure "android_find_elements" (PyVal.dict d2)
          (recordToolMessage (PyVal.dict d2)
            (recordSessionPointer "android_find_elements" (PyVal.dict d2) s1))))
      hz2 (by rw [hpre]; exact hstreak1)
    have h6 := ((fetchSizeOnStart_fields so "android_find_elements"
      (PyVal.dict d2) _).2.1).trans hact
    have h7 := ((injectScreenshot_game_streak vision eo "android_find_elements"
      (PyVal.dict d2) _).1).trans h6
    exact ((runAutoHooks_game_streak mobile_only ad ai "android_find_elements"
      (PyVal.dict d2) _).1).trans h7

/-- Claim C5 witness: activation by a tiny dump, by two empty searches, and
persistence across a later outcome. -/
theorem C5_game_mode_monotone_witness :
    (runOutcomes false false Option.none Option.none autoId autoId
        [("android_tap_coordinates", PyVal.dict [("success", PyVal.bool true)])]
        { initState with is_game_ui := true }).is_game_ui = true ∧
    (handle_tool_result false false Option.none Option.none autoId autoId
        "android_dump_ui"
        (PyVal.dict [("success", PyVal.bool true), ("xml", PyVal.str "<hierarchy/>")])
        initState).is_game_ui = true ∧
    (handle_tool_result false false Option.none Option.none autoId autoId
        "android_find_elements"
        (PyVal.dict [("success", PyVal.bool true), ("count", PyVal.int 0),
                     ("elements", PyVal.list [])])
        (handle_tool_result false false Option.none Option.none autoId autoId
          "android_find_elements"
          (PyVal.dict [("success", PyVal.bool true), ("count", PyVal.int 0),
                       ("elements", PyVal.list [])])
          initState)).is_game_ui = true := by
  refine ⟨?_, ?_, ?_⟩
  · exact (C5_game_mode_monotone false false Option.none Option.none autoId autoId).1
      [("android_tap_coordinates", PyVal.dict [("success", PyVal.bool true)])]
      { initState with is_game_ui := true } rfl
  · exact (C5_game_mode_monotone false false Option.none Option.none autoId autoId).2.1
      initState [("success", PyVal.bool true), ("xml", PyVal.str "<hierarchy/>")]
      (by decide) (Or.inl (by decide))
  · exact (C5_game_mode_monotone false false Option.none Option.none autoId autoId).2.2
      initState
      [("success", PyVal.bool true), ("count", PyVal.int 0), ("elements", PyVal.list [])]
      [("success", PyVal.bool true), ("count", PyVal.int 0), ("elements", PyVal.list [])]
      (by decide) (by decide)

/-
  Claim C1: exceptions at the dispatch boundary, corrective messages.
-/

/-- An implementation table whose every skill raises. -/
def raisingImpls : Impls := fun _ _ => Except.error ⟨"RuntimeError", "boom"⟩

/-- Claim C1 (amended): execute_skill propagates implementation exceptions
unchanged — no conversion into a success=false ToolResult occurs at the
dispatch boundary; and when a dispatched call returns a ToolResult with
success=false, the loop appends exactly one corrective system message before
the next reasoning-service call. -/
theorem C1_dispatch_exceptions :
    (∀ (impls : Impls) (name : String) (sg : SkillSig) (args : Dict) (e : PyExc),
        lookupSkill name = Option.some sg → bindArgs sg args = Except.ok () →
        impls name args = Except.error e →
        execute_skill impls name args = Except.error e) ∧
    (∀ (vision mobile_only : Bool) (so : Option (Nat × Nat)) (eo : Option String)
        (ad ai : LoopState → List Message × AutoFlags) (name : String) (d : Dict)
        (s : LoopState),
        isFalseLit (dictGetD d "success" PyVal.none) = true →
        correctiveCount (handle_tool_result vision mobile_only so eo ad ai name
            (PyVal.dict d) s).messages = correctiveCount s.messages + 1) := by
  constructor
  · intro impls name sg args e hlook hbind himpl
    simp [execute_skill, hlook, hbind, himpl]
  · intro vision mobile_only so eo ad ai name d s hfail
    have hsf : dictSuccessTruthy d = false := by
      unfold dictSuccessTruthy
      exact isFalseLit_not_truthy _ hfail
    rw [handle_tool_result_count vision mobile_only so eo ad ai name d s hsf, hfail]
    simp

/-- Claim C1 counterexample: a raising implementation propagates out of
execute_skill as the very exception — the dispatch result is not an ok
ToolResult of any kind, contradicting the claimed conversion. -/
theorem C1_counterexample :
    execute_skill raisingImpls "web_search" [("query", PyVal.str "hi")]
      = Except.error ⟨"RuntimeError", "boom"⟩ ∧
    (execute_skill raisingImpls "web_search" [("query", PyVal.str "hi")]).isOk
      = false :=
  ⟨rfl, rfl⟩

/-- Claim C1 witness: concrete propagation and a concrete corrective append. -/
theorem C1_dispatch_exceptions_witness :
    execute_skill (fun _ _ => Except.error ⟨"E", "x"⟩) "android_wait"
        [("session_id", PyVal.str "s")] = Except.error ⟨"E", "x"⟩ ∧
    correctiveCount (handle_tool_result false false Option.none Option.none
        autoId autoId "android_tap_text"
        (PyVal.dict [("success", PyVal.bool false),
                     ("error", PyVal.str "element_not_found")])
        initState).messages = correctiveCount initState.messages + 1 := by
  constructor
  · exact C1_dispatch_exceptions.1 (fun _ _ => Except.error ⟨"E", "x"⟩) "android_wait"
      ⟨["session_id"], ["wait_ms"], false⟩ [("session_id", PyVal.str "s")] ⟨"E", "x"⟩
      rfl rfl rfl
  · exact C1_dispatch_exceptions.2 false false Option.none Option.none autoId autoId
      "android_tap_text"
      [("success", PyVal.bool false), ("error", PyVal.str "element_not_found")]
      initState (by decide)

/-
  Claim C2: session injection and the missing-session outcome.
-/

/-- A name with the android_ prefix does not have the browser_ prefix. -/
theorem strStarts_android_not_browser (name : String)
    (h : strStarts name "android_" = true) : strStarts name "browser_" = false := by
  unfold strStarts at h ⊢
  cases hc : name.toList with
  | nil =>
    rw [hc] at h
    exact absurd h (by decide)
  | cons c cs =>
    rw [hc] at h
    have hca : c = 'a' := by
      by_contra hne
      rw [show ("android_" : String).toList = 'a' :: "ndroid_".toList from rfl] at h
      rw [isPrefixOfChars_ne_head _ _ _ _ (fun hh => hne hh.symm)] at h
      exact absurd h (by decide)
    subst hca
    rw [show ("browser_" : String).toList = 'b' :: "rowser_".toList from rfl]
    exact isPrefixOfChars_ne_head _ _ _ _ (by decide)

/-- A name with the browser_ prefix does not have the android_ prefix. -/
theorem strStarts_browser_not_android (name : String)
    (h : strStarts name "browser_" = true) : strStarts name "android_" = false := by
  unfold strStarts at h ⊢
  cases hc : name.toList with
  | nil =>
    rw [hc] at h
    exact absurd h (by decide)
  | cons c cs =>
    rw [hc] at h
    have hca : c = 'b' := by
      by_contra hne
      rw [show ("browser_" : String).toList = 'b' :: "rowser_".toList from rfl] at h
      rw [isPrefixOfChars_ne_head _ _ _ _ (fun hh => hne hh.symm)] at h
      exact absurd h (by decide)
    subst hca
    rw [show ("android_" : String).toList = 'a' :: "ndroid_".toList from rfl]
    exact isPrefixOfChars_ne_head _ _ _ _ (by decide)

/-- Every session-scoped skill in the dispatch table has session_id among its
required parameters and binds its keyword arguments. -/
theorem scoped_skills_require_session :
    ∀ p ∈ skills_table,
      (browserSessionScoped p.1 || androidSessionScoped p.1) = true →
      ("session_id" ∈ p.2.required ∧ p.2.ignores_args = false) := by
  decide

/-- A missing required keyword makes the wrapper call raise TypeError. -/
theorem bindArgs_missing_required (sg : SkillSig) (args : Dict)
    (hig : sg.ignores_args = false)
    (k : String) (hk : k ∈ sg.required) (hnk : hasKey args k = false) :
    ∃ e, bindArgs sg args = Except.error e := by
  simp only [bindArgs, hig, Bool.false_eq_true, if_false]
  split
  · exact ⟨_, rfl⟩
  · split
    · exact ⟨_, rfl⟩
    · rename_i hm
      exfalso
      have hmem : k ∈ sg.required.filter (fun p => !hasKey args p) :=
        List.mem_filter.mpr ⟨hk, by simp [hnk]⟩
      have hne := List.ne_nil_of_mem hmem
      simp [List.isEmpty_iff, hne] at hm

/-- Claim C2 (amended): a session-scoped tool call lacking session_id gets the
active session of the matching kind injected when one exists; when none
exists the arguments pass through unchanged and the dispatch raises (a
TypeError from keyword binding, since every session-scoped skill requires
session_id) instead of returning a session_not_found ToolResult. -/
theorem C2_session_injection :
    (∀ (activeB activeA : Option String) (name : String) (args : Dict) (sid : String),
        browserSessionScoped name = true → hasKey args "session_id" = false →
        activeB = Option.some sid → sid ≠ "" →
        inject_session activeB activeA name args
          = args ++ [("session_id", PyVal.str sid)]) ∧
    (∀ (activeB activeA : Option String) (name : String) (args : Dict) (sid : String),
        androidSessionScoped name = true → hasKey args "session_id" = false →
        activeA = Option.some sid → sid ≠ "" →
        inject_session activeB activeA name args
          = args ++ [("session_id", PyVal.str sid)]) ∧
    (∀ (impls : Impls) (name : String) (sg : SkillSig) (args : Dict),
        lookupSkill name = Option.some sg →
        (browserSessionScoped name || androidSessionScoped name) = true →
        hasKey args "session_id" = false →
        ∃ e, execute_skill impls name args = Except.error e) := by
  refine ⟨?_, ?_, ?_⟩
  · intro activeB activeA name args sid hscope hnk hact hsid
    have hb1 : strStarts name "browser_" = true := by
      unfold browserSessionScoped at hscope
      exact (Bool.and_eq_true _ _ ▸ hscope).1
    have hA : androidSessionScoped name = false := by
      unfold androidSessionScoped
      rw [strStarts_browser_not_android name hb1]
      rfl
    subst hact
    simp [inject_session, hscope, hnk, hsid, optTruthy, hA]
  · intro activeB activeA name args sid hscope hnk hact hsid
    have ha1 : strStarts name "android_" = true := by
      unfold androidSessionScoped at hscope
      exact (Bool.and_eq_true _ _ ▸ hscope).1
    have hB : browserSessionScoped name = false := by
      unfold browserSessionScoped
      rw [strStarts_android_not_browser name ha1]
      rfl
    subst hact
    simp [inject_session, hscope, hnk, hsid, optTruthy, hB]
  · intro impls name sg args hlook hscoped hnk
    have hmem := assocLookup_mem skills_table name sg hlook
    have hreq := scoped_skills_require_session (name, sg) hmem hscoped
    obtain ⟨e, he⟩ := bindArgs_missing_required sg args hreq.2 "session_id" hreq.1 hnk
    exact ⟨e, by simp [execute_skill, hlook, he]⟩

/-- Claim C2 counterexample: with no active session, a session-scoped call
lacking session_id is passed through uninjected and the dispatch raises a
TypeError — it does not return a session_not_found ToolResult. -/
theorem C2_counterexample :
    androidSessionScoped "android_tap_text" = true ∧
    inject_session Option.none Option.none "android_tap_text"
        [("text", PyVal.str "hi")] = [("text", PyVal.str "hi")] ∧
    execute_skill (fun _ _ => Except.ok [("success", PyVal.bool true)])
        "android_tap_text" [("text", PyVal.str "hi")]
      = Except.error ⟨"TypeError", "missing required positional argument"⟩ := by
  refine ⟨by decide, rfl, rfl⟩

/-- Claim C2 witness: injection with an active session of each kind, and the
raising outcome without one. -/
theorem C2_session_injection_witness :
    inject_session (Option.some "b-1") Option.none "browser_open"
        [("url", PyVal.str "u")]
      = [("url", PyVal.str "u"), ("session_id", PyVal.str "b-1")] ∧
    inject_session Option.none (Option.some "sess-1") "android_tap_text"
        [("text", PyVal.str "ok")]
      = [("text", PyVal.str "ok"), ("session_id", PyVal.str "sess-1")] ∧
    ∃ e, execute_skill (fun _ _ => Except.ok []) "browser_open" []
        = Except.error e := by
  refine ⟨?_, ?_, ?_⟩
  · exact C2_session_injection.1 (Option.some "b-1") Option.none "browser_open"
      [("url", PyVal.str "u")] "b-1" (by decide) (by decide) rfl (by decide)
  · exact C2_session_injection.2.1 Option.none (Option.some "sess-1")
      "android_tap_text" [("text", PyVal.str "ok")] "sess-1"
      (by decide) (by decide) rfl (by decide)
  · exact C2_session_injection.2.2 (fun _ _ => Except.ok []) "browser_open"
      ⟨["session_id", "url"], ["wait_ms"], false⟩ [] rfl (by decide) (by decide)

/-
  Claim C8: default success for results lacking the success key.
-/

/-- Claim C8: a ToolResult dict without an explicit success key is treated as
successful — the step observer flag is true, the insight branch fires as on
success, and no corrective system message is appended. -/
theorem C8_default_success (vision mobile_only : Bool) (so : Option (Nat × Nat))
    (eo : Option String) (ad ai : LoopState → List Message × AutoFlags)
    (name : String) (d : Dict) (s : LoopState)
    (h : assocFind d "success" = Option.none) :
    step_success_flag (PyVal.dict d) = true ∧
    insight_gate (PyVal.dict d) = true ∧
    correctiveCount (handle_tool_result vision mobile_only so eo ad ai name
        (PyVal.dict d) s).messages = correctiveCount s.messages := by
  have hval : dictGetD d "success" PyVal.none = PyVal.none := by
    unfold dictGetD
    rw [h]
  refine ⟨?_, ?_, ?_⟩
  · show (!(isFalseLit (dictGetD d "success" PyVal.none))) = true
    rw [hval]
    rfl
  · show (!(isFalseLit (dictGetD d "success" PyVal.none))) = true
    rw [hval]
    rfl
  · have hsf : dictSuccessTruthy d = false := by
      unfold dictSuccessTruthy
      rw [hval]
      rfl
    rw [handle_tool_result_count vision mobile_only so eo ad ai name d s hsf, hval]
    simp [isFalseLit]

/-- Claim C8 witness: the browser_start reuse dict, which has no success key. -/
theorem C8_default_success_witness :
    step_success_flag (PyVal.dict [("session_id", PyVal.str "b-1")]) = true ∧
    insight_gate (PyVal.dict [("session_id", PyVal.str "b-1")]) = true ∧
    correctiveCount (handle_tool_result false false Option.none Option.none
        autoId autoId "browser_start" (PyVal.dict [("session_id", PyVal.str "b-1")])
        initState).messages = correctiveCount initState.messages :=
  C8_default_success false false Option.none Option.none autoId autoId
    "browser_start" [("session_id", PyVal.str "b-1")] initState rfl

end AppAgent
